import Mathlib

/-!
Shallow embedding of the otp-profile-score component
(src/components/conveyal/otp-profile-score/master/index.js) and proofs about it.

Modelling conventions:
* JS numbers are modelled as rationals (`ℚ`); every constant in the source is a
  decimal literal, hence exactly representable.
* A JS object field that may be absent (`undefined`) is modelled as an `Option`.
* `String.prototype.toLowerCase` is modelled as `jsToLower`, mapping
  `Char.toLower` over the characters (all mode strings in play are ASCII).
* Mutation of the option record is modelled by threading the record through
  record updates in the same order as the source statements.
* `clone` produces an independent deep copy; on immutable Lean values it is the
  identity, so cloning is dropped from the embedding.
-/

namespace OtpProfileScore

def jsToLower (s : String) : String := ⟨s.data.map Char.toLower⟩

/-- Kilograms of CO2 burned per gallon of gasoline (source constant 8.887). -/
def CO2_PER_GALLON : ℚ := 8887 / 1000

/-- MET score for cycling (source constant 8). -/
def CYCLING_MET : ℚ := 8

/-- Source constant 0.000621371. -/
def METERS_TO_MILES : ℚ := 621371 / 1000000000

/-- Source constant 1 / 60 / 60. -/
def SECONDS_TO_HOURS : ℚ := 1 / 60 / 60

/-- MET score for walking (source constant 3.8). -/
def WALKING_MET : ℚ := 38 / 10

/-- CO2 per passenger transit trip (source constant 239000000 / 200000000). -/
def CO2_PER_TRANSIT_TRIP : ℚ := 239000000 / 200000000

/-- A time factor is either a plain number or a function from quantity to
minutes; `applyFactor` in the source branches on `typeof f === "function"`. -/
inductive Factor where
  | num (v : ℚ)
  | fn (f : ℚ → ℚ)

structure TimeFactors where
  bikeParking : Factor
  calories : Factor
  carParking : Factor
  co2 : Factor
  cost : Factor
  transfer : Factor

/-- Initial value of the module-level `DEFAULT_TIME_FACTORS` object. -/
def DEFAULT_TIME_FACTORS : TimeFactors :=
  { bikeParking := Factor.num 1
    calories := Factor.num (-1 / 100)
    carParking := Factor.num 5
    co2 := Factor.num (1 / 2)
    cost := Factor.num 5
    transfer := Factor.num 5 }

structure Rates where
  bikeSpeed : ℚ
  carParkingCost : ℚ
  co2PerTransitTrip : ℚ
  mileageRate : ℚ
  mpg : ℚ
  walkSpeed : ℚ
  weight : ℚ

/-- Initial value of the module-level `DEFAULT_RATES` object. -/
def DEFAULT_RATES : Rates :=
  { bikeSpeed := 41 / 10
    carParkingCost := 10
    co2PerTransitTrip := CO2_PER_TRANSIT_TRIP
    mileageRate := 56 / 100
    mpg := 214 / 10
    walkSpeed := 14 / 10
    weight := 75 }

/-- Overrides passed as `opts.factors`: a JS object holding any subset of the
six factor keys (`none` = key absent). -/
structure TimeFactorsOverride where
  bikeParking : Option Factor := none
  calories : Option Factor := none
  carParking : Option Factor := none
  co2 : Option Factor := none
  cost : Option Factor := none
  transfer : Option Factor := none

/-- Overrides passed as `opts.rates` (`none` = key absent). -/
structure RatesOverride where
  bikeSpeed : Option ℚ := none
  carParkingCost : Option ℚ := none
  co2PerTransitTrip : Option ℚ := none
  mileageRate : Option ℚ := none
  mpg : Option ℚ := none
  walkSpeed : Option ℚ := none
  weight : Option ℚ := none

/-- The merge(a, b) helper of the source copies every key of `b` into `a` (mutating `a`)
and returns `a`. This is the instance for factor objects: present override
keys win, absent keys keep the value in `a`. -/
def mergeFactors (a : TimeFactors) (b : TimeFactorsOverride) : TimeFactors :=
  { bikeParking := b.bikeParking.getD a.bikeParking
    calories := b.calories.getD a.calories
    carParking := b.carParking.getD a.carParking
    co2 := b.co2.getD a.co2
    cost := b.cost.getD a.cost
    transfer := b.transfer.getD a.transfer }

/-- The merge(a, b) helper of the source, for rate objects. -/
def mergeRates (a : Rates) (b : RatesOverride) : Rates :=
  { bikeSpeed := b.bikeSpeed.getD a.bikeSpeed
    carParkingCost := b.carParkingCost.getD a.carParkingCost
    co2PerTransitTrip := b.co2PerTransitTrip.getD a.co2PerTransitTrip
    mileageRate := b.mileageRate.getD a.mileageRate
    mpg := b.mpg.getD a.mpg
    walkSpeed := b.walkSpeed.getD a.walkSpeed
    weight := b.weight.getD a.weight }

/-- The constructor argument: `opts.factors` and `opts.rates` are both
optional. -/
structure ScorerOpts where
  factors : Option TimeFactorsOverride := none
  rates : Option RatesOverride := none

/-- The module-level mutable state: the current contents of the
`DEFAULT_TIME_FACTORS` and `DEFAULT_RATES` objects, which `merge` mutates on
every construction. -/
structure ModuleState where
  defaultTimeFactors : TimeFactors
  defaultRates : Rates

/-- Module state when the module is first loaded. -/
def initialModuleState : ModuleState :=
  { defaultTimeFactors := DEFAULT_TIME_FACTORS, defaultRates := DEFAULT_RATES }

structure ProfileScore where
  factors : TimeFactors
  rates : Rates

/-- The `ProfileScore(opts)` constructor. `opts = opts || {}`, then
`this.factors = merge(DEFAULT_TIME_FACTORS, opts.factors || {})` and
`this.rates = merge(DEFAULT_RATES, opts.rates || {})`. Because `merge`
mutates and returns its first argument, the new module state holds exactly
the merged objects that the instance also references. -/
def construct (st : ModuleState) (opts : Option ScorerOpts) :
    ProfileScore × ModuleState :=
  let o := opts.getD {}
  let f := mergeFactors st.defaultTimeFactors (o.factors.getD {})
  let r := mergeRates st.defaultRates (o.rates.getD {})
  (⟨f, r⟩, ⟨f, r⟩)

/-- A scorer built by the first construction on a fresh module, with no
overrides. -/
def defaultScorer : ProfileScore := (construct initialModuleState none).1

/-- One street edge: `mode` is an optional sub-mode override (`none` = the
field is absent), `distance` is in meters. -/
structure StreetEdge where
  mode : Option String := none
  distance : ℚ

/-- An access or egress leg. `streetEdges` is `none` when the field is absent
from the JS object; a present-but-empty array is `some []`. -/
structure Leg where
  mode : String
  time : ℚ := 0
  streetEdges : Option (List StreetEdge) := none

structure AvgStats where
  avg : ℚ

/-- One transit segment. `nTrips` stands for `segmentPatterns[0].nTrips` and
is `none` when the `segmentPatterns` field is absent. -/
structure TransitSegment where
  mode : String
  nTrips : Option ℚ := none
  walkTime : ℚ := 0
  walkDistance : ℚ := 0
  waitStats : AvgStats := ⟨0⟩
  rideStats : AvgStats := ⟨0⟩

structure Fare where
  peak : Option ℚ := none

/-- The option record, as mutated in place by the pipeline. The accumulator
fields that `tally` always assigns are plain rationals (their pre-tally values
are irrelevant, which the theorems below make precise); `carCost`, `trips` and
`score` are the only fields the pipeline can leave unassigned, so they are
`Option` (`none` = `undefined`). During the transit loop, `trips = none` also
plays the role of the JS `Infinity` seed. -/
@[ext]
structure Opt where
  access : Option (List Leg) := none
  egress : Option (List Leg) := none
  transit : Option (List TransitSegment) := none
  fares : Option (List (Option Fare)) := none
  bikeCalories : ℚ := 0
  calories : ℚ := 0
  cost : ℚ := 0
  emissions : ℚ := 0
  modes : List String := []
  time : ℚ := 0
  timeInTransit : ℚ := 0
  transfers : ℚ := 0
  transitCost : ℚ := 0
  walkCalories : ℚ := 0
  bikeDistance : ℚ := 0
  driveDistance : ℚ := 0
  walkDistance : ℚ := 0
  carCost : Option ℚ := none
  trips : Option ℚ := none
  score : Option ℚ := none

/-- Source `caloriesBurned(met, kg, hours) = met * kg * hours`. -/
def caloriesBurned (met kg hours : ℚ) : ℚ := met * kg * hours

/-- Source `applyFactor(v, f)`: call `f` if it is a function, multiply
otherwise. -/
def applyFactor (v : ℚ) (f : Factor) : ℚ :=
  match f with
  | Factor.fn g => g v
  | Factor.num c => c * v

/-- Reducer of `streetEdgeDistanceForMode`: the fold state is
(currentMode, distance); an edge with a present, non-empty `mode` string (JS
truthiness) re-declares the current sub-mode. -/
def streetEdgeStep (mode : String) (s : String × ℚ) (step : StreetEdge) : String × ℚ :=
  let currentMode :=
    match step.mode with
    | some m => if m = "" then s.1 else jsToLower m
    | none => s.1
  (currentMode, if currentMode = mode then s.2 + step.distance else s.2)

/-- Source `streetEdgeDistanceForMode`: reduce over the edges carrying the
current sub-mode in the closure, seeded with "walk" and distance 0. -/
def streetEdgeDistanceForMode (streetEdges : List StreetEdge) (mode : String) : ℚ :=
  (streetEdges.foldl (streetEdgeStep mode) ("walk", 0)).2

/-- Source `addStreetEdges(o, mode, streetEdges)`: returns immediately when the
`streetEdges` field is absent (a present-but-empty array is truthy in JS and
proceeds); otherwise pushes the mode and dispatches on it. -/
def addStreetEdges (o : Opt) (mode : String) (streetEdges : Option (List StreetEdge)) : Opt :=
  match streetEdges with
  | none => o
  | some edges =>
    let o := { o with modes := o.modes ++ [mode] }
    if mode = "car" then
      { o with driveDistance := o.driveDistance + streetEdgeDistanceForMode edges "car" }
    else if mode = "bicycle" then
      { o with bikeDistance := o.bikeDistance + streetEdgeDistanceForMode edges "bicycle" }
    else if mode = "bicycle_rent" then
      { o with modes := o.modes ++ ["walk"],
               bikeDistance := o.bikeDistance + streetEdgeDistanceForMode edges "bicycle",
               walkDistance := o.walkDistance + streetEdgeDistanceForMode edges "walk" }
    else if mode = "walk" then
      { o with walkDistance := o.walkDistance + streetEdgeDistanceForMode edges "walk" }
    else o

/-- Reducer of the de-duplication reduce at the end of `tally`:
`modes.indexOf(mode) === -1 ? modes.concat(mode) : modes`. -/
def dedupIns {α : Type} [DecidableEq α] (modes : List α) (mode : α) : List α :=
  if mode ∈ modes then modes else modes ++ [mode]

/-- The de-duplication reduce at the end of `tally`, folded from `[]`. -/
def jsDedup {α : Type} [DecidableEq α] (l : List α) : List α :=
  l.foldl dedupIns []

/-- The `// Defaults` block at the top of `tally`. -/
def tallyDefaults (o : Opt) : Opt :=
  { o with bikeCalories := 0, calories := 0, cost := 0, emissions := 0,
           modes := [], time := 0, timeInTransit := 0, transfers := 0,
           transitCost := 0, walkCalories := 0,
           bikeDistance := 0, driveDistance := 0, walkDistance := 0 }

/-- The `// Tally access` block: only the first access leg is used. -/
def tallyAccess (o : Opt) : Opt :=
  match o.access with
  | some (access :: _) =>
    let accessMode := jsToLower access.mode
    let o := addStreetEdges o accessMode access.streetEdges
    { o with time := o.time + access.time }
  | _ => o

/-- The `// Tally egress` block: only the first egress leg is used. -/
def tallyEgress (o : Opt) : Opt :=
  match o.egress with
  | some (egress :: _) =>
    let egressMode := jsToLower egress.mode
    let o := addStreetEdges o egressMode egress.streetEdges
    { o with time := o.time + egress.time }
  | _ => o

/-- Body of the `o.transit.forEach` loop. -/
def transitStep (self : ProfileScore) (o : Opt) (segment : TransitSegment) : Opt :=
  let o := { o with modes := o.modes ++ [jsToLower segment.mode] }
  let trips := segment.nTrips.getD 0
  let o :=
    match o.trips with
    | none => { o with trips := some trips }
    | some v => if trips < v then { o with trips := some trips } else o
  let timeInTransit := segment.waitStats.avg + segment.rideStats.avg
  let o := { o with timeInTransit := o.timeInTransit + timeInTransit }
  let o := { o with time := o.time + segment.walkTime + timeInTransit }
  let o := { o with walkDistance := o.walkDistance + segment.walkDistance }
  { o with emissions := o.emissions + self.rates.co2PerTransitTrip }

/-- Body of the `o.fares.forEach` loop: `if (fare && fare.peak)` requires the
fare to be present and its `peak` field present and non-zero (JS truthiness). -/
def faresStep (o : Opt) (fare : Option Fare) : Opt :=
  match fare with
  | some f =>
    match f.peak with
    | some p => if p ≠ 0 then { o with transitCost := o.transitCost + p } else o
    | none => o
  | none => o

/-- The `if (o.fares)` block inside the transit branch. -/
def faresBlock (o : Opt) : Opt :=
  match o.fares with
  | some fares => fares.foldl faresStep o
  | none => o

/-- The `// Tally transit` block. `o.trips = Infinity` is modelled by seeding
`trips` with `none`; the loop body then always runs at least once and stores a
number. -/
def tallyTransit (self : ProfileScore) (o : Opt) : Opt :=
  match o.transit with
  | some (seg :: segs) =>
    let o := { o with transfers := ((seg :: segs).length : ℚ) - 1,
                      transitCost := 0, trips := none }
    let o := (seg :: segs).foldl (transitStep self) o
    let o := faresBlock o
    { o with cost := o.cost + o.transitCost }
  | _ => o

/-- The `// Set the walking calories burned` block. -/
def tallyWalkCalories (self : ProfileScore) (o : Opt) : Opt :=
  if "walk" ∈ o.modes then
    let wc := caloriesBurned WALKING_MET self.rates.weight
      ((o.walkDistance / self.rates.walkSpeed) * SECONDS_TO_HOURS)
    { o with walkCalories := wc }
  else o

/-- The `// Set the biking calories burned` block. -/
def tallyBikeCalories (self : ProfileScore) (o : Opt) : Opt :=
  if "bicycle" ∈ o.modes ∨ "bicycle_rent" ∈ o.modes then
    let bc := caloriesBurned CYCLING_MET self.rates.weight
      ((o.bikeDistance / self.rates.bikeSpeed) * SECONDS_TO_HOURS)
    { o with bikeCalories := bc }
  else o

/-- The `// Set the parking costs` block: assigns `carCost`, adds it to
`cost`, and overwrites `emissions` with the car formula. -/
def tallyCar (self : ProfileScore) (o : Opt) : Opt :=
  if "car" ∈ o.modes then
    let carCost := self.rates.mileageRate * (o.driveDistance * METERS_TO_MILES)
      + self.rates.carParkingCost
    { o with carCost := some carCost, cost := o.cost + carCost,
             emissions := o.driveDistance / self.rates.mpg * CO2_PER_GALLON }
  else o

/-- The `// unique modes only` reduce. -/
def tallyDedup (o : Opt) : Opt :=
  { o with modes := jsDedup o.modes }

/-- The `// Total calories` line. -/
def tallyCaloriesTotal (o : Opt) : Opt :=
  { o with calories := o.bikeCalories + o.walkCalories }

/-- `ProfileScore.prototype.tally`, as the composition of its blocks in source
order. -/
def ProfileScore.tally (self : ProfileScore) (o : Opt) : Opt :=
  tallyCaloriesTotal (tallyDedup (tallyCar self (tallyBikeCalories self
    (tallyWalkCalories self (tallyTransit self (tallyEgress (tallyAccess
      (tallyDefaults o))))))))

/-- The state of the record after the walking/biking-calorie blocks, just
before the parking-cost block. -/
def tallyPre (self : ProfileScore) (o : Opt) : Opt :=
  tallyBikeCalories self (tallyWalkCalories self (tallyTransit self
    (tallyEgress (tallyAccess (tallyDefaults o)))))

/-- The modes list right before the unique-modes reduce. -/
def preDedupModes (self : ProfileScore) (o : Opt) : List String :=
  (tallyCar self (tallyPre self o)).modes

/-- The additions the `o.modes.forEach` switch in `score` makes to the running
score. The JS loop carries the two accumulators `score` and `totalCalories`
through one pass; no case reads the other accumulator, so the single loop is
split into this fold and `totalCaloriesOf`. -/
def scoreModesFold (factors : TimeFactors) (o : Opt) (s0 : ℚ) : ℚ :=
  o.modes.foldl
    (fun s mode =>
      if mode = "car" then
        s + applyFactor 1 factors.carParking + applyFactor o.emissions factors.co2
      else if mode = "bicycle" ∨ mode = "bicycle_rent" then
        s + applyFactor 1 factors.bikeParking
      else s)
    s0

/-- The `totalCalories` accumulator of the `o.modes.forEach` switch in
`score`. -/
def totalCaloriesOf (o : Opt) : ℚ :=
  o.modes.foldl
    (fun tc mode =>
      if mode = "bicycle" ∨ mode = "bicycle_rent" then tc + o.bikeCalories
      else if mode = "walk" then tc + o.walkCalories
      else tc)
    0

/-- `ProfileScore.prototype.score`: start from `o.time / 60`, walk the modes,
then apply the transfer, cost and calories factors. -/
def ProfileScore.score (self : ProfileScore) (o : Opt) : ℚ :=
  scoreModesFold self.factors o (o.time / 60)
    + applyFactor o.transfers self.factors.transfer
    + applyFactor o.cost self.factors.cost
    + applyFactor (totalCaloriesOf o) self.factors.calories

/-- `ProfileScore.prototype.processOption`: tally, then store the score. -/
def ProfileScore.processOption (self : ProfileScore) (o : Opt) : Opt :=
  let o := self.tally o
  { o with score := some (self.score o) }

/-- The expansion loop of `processOptions` before sorting: for every option
with a present `access` array (a present empty array is truthy but yields no
iterations), for every access alternative, either one branch per egress
alternative or a single branch when `egress` is absent or empty. -/
def expandBranches (self : ProfileScore) (options : List Opt) : List Opt :=
  options.flatMap (fun o =>
    match o.access with
    | none => []
    | some accs =>
      accs.flatMap (fun a =>
        match o.egress with
        | some (e :: es) =>
          (e :: es).map (fun eg =>
            self.processOption { o with access := some [a], egress := some [eg] })
        | _ => [self.processOption { o with access := some [a] }]))

/-- Sort key: every processed branch has `score` set; `getD 0` only widens the
comparator to unprocessed records. -/
def scoreKey (o : Opt) : ℚ := o.score.getD 0

/-- The comparator `(a, b) => a.score - b.score` used with the (stable,
ES2019) `Array.prototype.sort`, as a boolean total preorder. -/
def scoreLe (a b : Opt) : Bool := decide (scoreKey a ≤ scoreKey b)

/-- `ProfileScore.prototype.processOptions`: expand, process, stable-sort
ascending by score. -/
def ProfileScore.processOptions (self : ProfileScore) (options : List Opt) : List Opt :=
  (expandBranches self options).mergeSort scoreLe

/-- Zeroes the numeric accumulator fields that the claim about tally
re-initialisation lists, except `carCost`. -/
def zeroAccums (o : Opt) : Opt :=
  { o with bikeCalories := 0, calories := 0, cost := 0, emissions := 0,
           time := 0, timeInTransit := 0, transfers := 0, transitCost := 0,
           walkCalories := 0, bikeDistance := 0, driveDistance := 0,
           walkDistance := 0 }

/-- Names of the six time-factor keys, for key-by-key statements about the
configuration merge. -/
inductive FactorKey where
  | bikeParking | calories | carParking | co2 | cost | transfer

def TimeFactors.get (a : TimeFactors) : FactorKey → Factor
  | FactorKey.bikeParking => a.bikeParking
  | FactorKey.calories => a.calories
  | FactorKey.carParking => a.carParking
  | FactorKey.co2 => a.co2
  | FactorKey.cost => a.cost
  | FactorKey.transfer => a.transfer

def TimeFactorsOverride.get (b : TimeFactorsOverride) : FactorKey → Option Factor
  | FactorKey.bikeParking => b.bikeParking
  | FactorKey.calories => b.calories
  | FactorKey.carParking => b.carParking
  | FactorKey.co2 => b.co2
  | FactorKey.cost => b.cost
  | FactorKey.transfer => b.transfer

/-- Names of the seven rate keys. -/
inductive RateKey where
  | bikeSpeed | carParkingCost | co2PerTransitTrip | mileageRate | mpg
  | walkSpeed | weight

def Rates.get (a : Rates) : RateKey → ℚ
  | RateKey.bikeSpeed => a.bikeSpeed
  | RateKey.carParkingCost => a.carParkingCost
  | RateKey.co2PerTransitTrip => a.co2PerTransitTrip
  | RateKey.mileageRate => a.mileageRate
  | RateKey.mpg => a.mpg
  | RateKey.walkSpeed => a.walkSpeed
  | RateKey.weight => a.weight

def RatesOverride.get (b : RatesOverride) : RateKey → Option ℚ
  | RateKey.bikeSpeed => b.bikeSpeed
  | RateKey.carParkingCost => b.carParkingCost
  | RateKey.co2PerTransitTrip => b.co2PerTransitTrip
  | RateKey.mileageRate => b.mileageRate
  | RateKey.mpg => b.mpg
  | RateKey.walkSpeed => b.walkSpeed
  | RateKey.weight => b.weight

/-- Modelled from the spec for comparison with `streetEdgeDistanceForMode`:
annotates every street edge with its current sub-mode, "the most recently
declared mode, defaulting to walk until one is declared". -/
def specSubModes (cm : String) : List StreetEdge → List (String × ℚ)
  | [] => []
  | e :: es =>
    let cm2 :=
      match e.mode with
      | some m => if m = "" then cm else jsToLower m
      | none => cm
    (cm2, e.distance) :: specSubModes cm2 es

/-- Modelled from the spec for comparison with `streetEdgeDistanceForMode`:
"sum the distance of every edge whose current sub-mode equals the target". -/
def specModeDistance (target : String) (edges : List StreetEdge) : ℚ :=
  (((specSubModes "walk" edges).filter (fun p => p.1 = target)).map Prod.snd).sum

/-- Number of scored results one raw option contributes to `processOptions`:
access-count times egress-count when both arrays are present and egress is
non-empty, access-count when egress is absent or empty, zero when access is
absent (and, via the product, when it is empty). -/
def branchCount (o : Opt) : ℕ :=
  match o.access with
  | none => 0
  | some accs =>
    match o.egress with
    | some (_ :: es) => accs.length * (es.length + 1)
    | _ => accs.length

/- Concrete records used by the counterexamples and witnesses below. -/

/-- Access leg riding an owned bicycle for 14760 meters (exactly one hour at
the default bike speed of 4.1 m/s, hence 600 kcal at MET 8 and 75 kg). -/
def bikeAccessLeg : Leg :=
  { mode := "bicycle", time := 10, streetEdges := some [{ mode := some "bicycle", distance := 14760 }] }

/-- Egress leg on a rental bicycle whose street-edge array is present but
empty; it still injects the synthetic walk mode. -/
def rentalEgressLeg : Leg :=
  { mode := "bicycle_rent", time := 5, streetEdges := some [] }

/-- Option whose tallied modes contain both bicycle and bicycle_rent. -/
def oBothBikes : Opt :=
  { access := some [bikeAccessLeg], egress := some [rentalEgressLeg] }

/-- Walk access leg with a time of 120 but no streetEdges field. -/
def oTimeOnly : Opt :=
  { access := some [{ mode := "walk", time := 120, streetEdges := none }] }

/-- Car access leg (upper-case mode) plus two transit legs, for the emissions
override. -/
def oCarTransit : Opt :=
  { access := some [{ mode := "CAR", time := 30, streetEdges := some [{ mode := some "car", distance := 2140 }] }],
    transit := some [{ mode := "BUS", walkTime := 1, waitStats := ⟨2⟩, rideStats := ⟨3⟩ }, { mode := "RAIL", walkTime := 1, waitStats := ⟨2⟩, rideStats := ⟨3⟩ }] }

/-- An option carrying a stale `carCost` from an earlier run and no car leg. -/
def oStaleCarCost : Opt := { carCost := some 99 }

/-- Scenario C from the spec: rental-bike access leg with a 1000 m bicycle
edge followed by a 100 m walk edge. -/
def oScenarioC : Opt :=
  { access := some [{ mode := "bicycle_rent", time := 0, streetEdges := some [{ mode := some "bicycle", distance := 1000 }, { mode := some "walk", distance := 100 }] }] }

/-- Walk access leg plus two bus legs whose lower-cased modes collide, so the
raw modes list has a duplicate. -/
def oDupModes : Opt :=
  { access := some [{ mode := "walk", time := 60, streetEdges := some [{ distance := 100 }] }],
    transit := some [{ mode := "BUS" }, { mode := "bus" }] }

/-- Walk access leg with time 7 and no streetEdges field. -/
def legNoEdges : Leg := { mode := "walk", time := 7, streetEdges := none }

/-- Option holding only `legNoEdges` as access. -/
def oNoEdges : Opt := { access := some [legNoEdges] }

/-- Option holding only `legNoEdges` as egress. -/
def oEgressNoEdges : Opt := { egress := some [legNoEdges] }

/-- Option with a non-zero time and no legs at all, for instantiating the
empty-modes score statement. -/
def oBareTime : Opt := { time := 300 }

/-- First construction on a fresh module: overrides the cost factor. -/
def firstConstruction : ProfileScore × ModuleState :=
  construct initialModuleState (some { factors := some { cost := some (Factor.num 99) } })

/-- Second construction, passing an empty options object. -/
def secondConstruction : ProfileScore × ModuleState :=
  construct firstConstruction.2 (some {})

/-- Two option records that agree on every field except time and access. Used
to track the two tally runs compared by the missing-streetEdges claim. -/
def EqExceptTA (q p : Opt) : Prop :=
  q.egress = p.egress ∧ q.transit = p.transit ∧ q.fares = p.fares ∧
  q.bikeCalories = p.bikeCalories ∧ q.calories = p.calories ∧ q.cost = p.cost ∧
  q.emissions = p.emissions ∧ q.modes = p.modes ∧ q.timeInTransit = p.timeInTransit ∧
  q.transfers = p.transfers ∧ q.transitCost = p.transitCost ∧
  q.walkCalories = p.walkCalories ∧ q.bikeDistance = p.bikeDistance ∧
  q.driveDistance = p.driveDistance ∧ q.walkDistance = p.walkDistance ∧
  q.carCost = p.carCost ∧ q.trips = p.trips ∧ q.score = p.score

/-- Two option records that agree on every field except time, access and
egress. Used to track the two tally runs compared by the egress half of the
missing-streetEdges claim, where the egress block has already consumed the
differing egress field. -/
def EqExceptTAE (q p : Opt) : Prop :=
  q.transit = p.transit ∧ q.fares = p.fares ∧
  q.bikeCalories = p.bikeCalories ∧ q.calories = p.calories ∧ q.cost = p.cost ∧
  q.emissions = p.emissions ∧ q.modes = p.modes ∧ q.timeInTransit = p.timeInTransit ∧
  q.transfers = p.transfers ∧ q.transitCost = p.transitCost ∧
  q.walkCalories = p.walkCalories ∧ q.bikeDistance = p.bikeDistance ∧
  q.driveDistance = p.driveDistance ∧ q.walkDistance = p.walkDistance ∧
  q.carCost = p.carCost ∧ q.trips = p.trips ∧ q.score = p.score

variable {α : Type} [DecidableEq α]

lemma foldl_dedupIns_mem (l acc : List α) (x : α) :
    x ∈ l.foldl dedupIns acc ↔ x ∈ acc ∨ x ∈ l := by
  induction l generalizing acc with
  | nil => simp
  | cons a l ih =>
    rw [List.foldl_cons, ih]
    unfold dedupIns
    by_cases h : a ∈ acc
    · rw [if_pos h]
      simp only [List.mem_cons]
      constructor
      · rintro (h1 | h1)
        · exact Or.inl h1
        · exact Or.inr (Or.inr h1)
      · rintro (h1 | h1 | h1)
        · exact Or.inl h1
        · exact Or.inl (h1 ▸ h)
        · exact Or.inr h1
    · rw [if_neg h]
      simp only [List.mem_append, List.mem_singleton, List.mem_cons]
      tauto

lemma mem_jsDedup (l : List α) (x : α) : x ∈ jsDedup l ↔ x ∈ l := by
  rw [jsDedup, foldl_dedupIns_mem]; simp

lemma foldl_dedupIns_nodup (l acc : List α) (h : acc.Nodup) :
    (l.foldl dedupIns acc).Nodup := by
  induction l generalizing acc with
  | nil => exact h
  | cons a l ih =>
    rw [List.foldl_cons]
    apply ih
    unfold dedupIns
    split
    · exact h
    · rename_i hna
      simp [List.nodup_append, h, hna]

lemma jsDedup_nodup (l : List α) : (jsDedup l).Nodup :=
  foldl_dedupIns_nodup l [] List.nodup_nil

lemma indexOf_append_left {x : α} {p : List α} (t : List α) (h : x ∈ p) :
    (p ++ t).indexOf x = p.indexOf x := by
  induction p with
  | nil => cases h
  | cons a p ih =>
    rw [List.cons_append, List.indexOf_cons, List.indexOf_cons]
    cases hax : a == x with
    | true => simp
    | false =>
      simp only [cond_false]
      rw [ih]
      rcases List.mem_cons.1 h with h1 | h1
      · subst h1; simp at hax
      · exact h1

lemma indexOf_append_right {x : α} {p : List α} (t : List α) (h : x ∉ p) :
    (p ++ t).indexOf x = p.length + t.indexOf x := by
  induction p with
  | nil => simp
  | cons a p ih =>
    rw [List.cons_append, List.indexOf_cons]
    have hax : (a == x) = false := by
      simp only [beq_eq_false_iff_ne, ne_eq]
      intro hh; exact h (hh ▸ List.mem_cons_self a p)
    rw [hax]
    simp only [cond_false, List.length_cons]
    rw [ih (fun hm => h (List.mem_cons_of_mem a hm))]
    omega

lemma foldl_dedupIns_pairwise (L : List α) :
    ∀ (rest p acc : List α), L = p ++ rest →
    (∀ x, x ∈ acc ↔ x ∈ p) →
    acc.Pairwise (fun x y => L.indexOf x < L.indexOf y) →
    (rest.foldl dedupIns acc).Pairwise (fun x y => L.indexOf x < L.indexOf y) := by
  intro rest
  induction rest with
  | nil => intro p acc _ _ hpw; exact hpw
  | cons a rest ih =>
    intro p acc hL hmem hpw
    rw [List.foldl_cons]
    by_cases h : a ∈ acc
    · rw [dedupIns, if_pos h]
      refine ih (p ++ [a]) acc (by simp [hL]) ?_ hpw
      intro x
      rw [hmem x]
      simp only [List.mem_append, List.mem_singleton]
      constructor
      · intro hx; exact Or.inl hx
      · rintro (hx | rfl)
        · exact hx
        · exact (hmem x).1 h
    · rw [dedupIns, if_neg h]
      have hanp : a ∉ p := fun hp => h ((hmem a).2 hp)
      have hnew : ∀ x ∈ acc, L.indexOf x < L.indexOf a := by
        intro x hx
        have hxp : x ∈ p := (hmem x).1 hx
        rw [hL, indexOf_append_left _ hxp, indexOf_append_right _ hanp]
        have := List.indexOf_lt_length.2 hxp
        simp only [List.indexOf_cons_self]
        omega
      refine ih (p ++ [a]) (acc ++ [a]) (by simp [hL]) ?_ ?_
      · intro x
        simp only [List.mem_append, List.mem_singleton]
        exact or_congr_left (hmem x)
      · rw [List.pairwise_append]
        exact ⟨hpw, List.pairwise_singleton _ a,
          fun x hx b hb => (List.mem_singleton.1 hb) ▸ hnew x hx⟩

lemma jsDedup_pairwise (l : List α) :
    (jsDedup l).Pairwise (fun x y => l.indexOf x < l.indexOf y) := by
  exact foldl_dedupIns_pairwise l l [] [] (by simp) (fun x => by simp) List.Pairwise.nil

lemma jsDedup_indexOf_lt_iff (l : List α) (x y : α)
    (hx : x ∈ jsDedup l) (hy : y ∈ jsDedup l) :
    (jsDedup l).indexOf x < (jsDedup l).indexOf y ↔ l.indexOf x < l.indexOf y := by
  have hpw := jsDedup_pairwise l
  have forward : ∀ u v : α, u ∈ jsDedup l → v ∈ jsDedup l →
      (jsDedup l).indexOf u < (jsDedup l).indexOf v → l.indexOf u < l.indexOf v := by
    intro u v hu hv hlt
    have hu' := List.indexOf_lt_length.2 hu
    have hv' := List.indexOf_lt_length.2 hv
    have := (List.pairwise_iff_get.1 hpw) ⟨_, hu'⟩ ⟨_, hv'⟩ hlt
    rwa [List.indexOf_get, List.indexOf_get] at this
  constructor
  · exact forward x y hx hy
  · intro hlt
    rcases Nat.lt_trichotomy ((jsDedup l).indexOf x) ((jsDedup l).indexOf y) with h1 | h1 | h1
    · exact h1
    · exfalso
      have hx' := List.indexOf_lt_length.2 hx
      have hy' := List.indexOf_lt_length.2 hy
      have e1 : (jsDedup l).get ⟨(jsDedup l).indexOf x, hx'⟩ = x := List.indexOf_get hx'
      have e2 : (jsDedup l).get ⟨(jsDedup l).indexOf y, hy'⟩ = y := List.indexOf_get hy'
      have hfin : (⟨(jsDedup l).indexOf x, hx'⟩ : Fin (jsDedup l).length)
          = ⟨(jsDedup l).indexOf y, hy'⟩ := Fin.ext h1
      have hxy : x = y := by rw [← e1, ← e2, hfin]
      rw [hxy] at hlt
      exact lt_irrefl _ hlt
    · exact absurd (forward y x hy hx h1) (by omega)



-- Stage bookkeeping: fields each tally block leaves unchanged.

lemma addStreetEdges_carCost (o : Opt) (m : String) (se : Option (List StreetEdge)) :
    (addStreetEdges o m se).carCost = o.carCost := by
  rcases se with _ | edges
  · rfl
  · dsimp only [addStreetEdges]
    split_ifs <;> rfl

lemma tallyAccess_carCost (o : Opt) : (tallyAccess o).carCost = o.carCost := by
  unfold tallyAccess
  cases h : o.access with
  | none => rfl
  | some xs =>
    cases xs with
    | nil => rfl
    | cons a rest => simp [addStreetEdges_carCost]

lemma tallyEgress_carCost (o : Opt) : (tallyEgress o).carCost = o.carCost := by
  unfold tallyEgress
  cases h : o.egress with
  | none => rfl
  | some xs =>
    cases xs with
    | nil => rfl
    | cons a rest => simp [addStreetEdges_carCost]

lemma transitStep_carCost (self : ProfileScore) (o : Opt) (seg : TransitSegment) :
    (transitStep self o seg).carCost = o.carCost := by
  dsimp only [transitStep]
  cases o.trips
  · rfl
  · dsimp only
    split <;> rfl

lemma foldl_transitStep_carCost (self : ProfileScore) (segs : List TransitSegment) (o : Opt) :
    (segs.foldl (transitStep self) o).carCost = o.carCost := by
  induction segs generalizing o with
  | nil => rfl
  | cons s segs ih => rw [List.foldl_cons, ih, transitStep_carCost]

lemma faresStep_carCost (o : Opt) (fare : Option Fare) :
    (faresStep o fare).carCost = o.carCost := by
  rcases fare with _ | f
  · rfl
  · dsimp only [faresStep]
    cases f.peak
    · rfl
    · dsimp only
      split <;> rfl

lemma foldl_faresStep_carCost (fares : List (Option Fare)) (o : Opt) :
    (fares.foldl faresStep o).carCost = o.carCost := by
  induction fares generalizing o with
  | nil => rfl
  | cons f fares ih => rw [List.foldl_cons, ih, faresStep_carCost]

lemma faresBlock_carCost (o : Opt) : (faresBlock o).carCost = o.carCost := by
  unfold faresBlock
  cases h : o.fares with
  | none => rfl
  | some fares =>
    dsimp only
    exact foldl_faresStep_carCost fares o

lemma tallyTransit_carCost (self : ProfileScore) (o : Opt) :
    (tallyTransit self o).carCost = o.carCost := by
  unfold tallyTransit
  cases h : o.transit with
  | none => rfl
  | some xs =>
    cases xs with
    | nil => rfl
    | cons s segs =>
      dsimp only
      rw [faresBlock_carCost, foldl_transitStep_carCost]

lemma tallyWalkCalories_carCost (self : ProfileScore) (o : Opt) :
    (tallyWalkCalories self o).carCost = o.carCost := by
  unfold tallyWalkCalories
  split <;> rfl

lemma tallyBikeCalories_carCost (self : ProfileScore) (o : Opt) :
    (tallyBikeCalories self o).carCost = o.carCost := by
  unfold tallyBikeCalories
  split <;> rfl

lemma tallyPre_carCost (self : ProfileScore) (o : Opt) :
    (tallyPre self o).carCost = o.carCost := by
  unfold tallyPre
  rw [tallyBikeCalories_carCost, tallyWalkCalories_carCost, tallyTransit_carCost,
    tallyEgress_carCost, tallyAccess_carCost]
  rfl

lemma tallyCar_modes (self : ProfileScore) (o : Opt) :
    (tallyCar self o).modes = o.modes := by
  unfold tallyCar
  split <;> rfl

lemma tallyCar_driveDistance (self : ProfileScore) (o : Opt) :
    (tallyCar self o).driveDistance = o.driveDistance := by
  unfold tallyCar
  split <;> rfl

lemma tallyDedup_emissions (o : Opt) : (tallyDedup o).emissions = o.emissions := rfl

lemma tallyDedup_carCost (o : Opt) : (tallyDedup o).carCost = o.carCost := rfl

lemma tallyDedup_driveDistance (o : Opt) : (tallyDedup o).driveDistance = o.driveDistance := rfl

lemma tallyCaloriesTotal_emissions (o : Opt) : (tallyCaloriesTotal o).emissions = o.emissions := rfl

lemma tallyCaloriesTotal_carCost (o : Opt) : (tallyCaloriesTotal o).carCost = o.carCost := rfl

lemma tallyCaloriesTotal_driveDistance (o : Opt) :
    (tallyCaloriesTotal o).driveDistance = o.driveDistance := rfl

lemma tallyCaloriesTotal_modes (o : Opt) : (tallyCaloriesTotal o).modes = o.modes := rfl

lemma tally_stages (self : ProfileScore) (o : Opt) :
    self.tally o = tallyCaloriesTotal (tallyDedup (tallyCar self (tallyPre self o))) := rfl

lemma tally_modes (self : ProfileScore) (o : Opt) :
    (self.tally o).modes = jsDedup (preDedupModes self o) := by
  rw [tally_stages, tallyCaloriesTotal_modes]
  rfl

lemma preDedupModes_eq (self : ProfileScore) (o : Opt) :
    preDedupModes self o = (tallyPre self o).modes := tallyCar_modes self _

lemma tally_driveDistance (self : ProfileScore) (o : Opt) :
    (self.tally o).driveDistance = (tallyPre self o).driveDistance := by
  rw [tally_stages, tallyCaloriesTotal_driveDistance, tallyDedup_driveDistance,
    tallyCar_driveDistance]

lemma tally_carCost (self : ProfileScore) (o : Opt) :
    (self.tally o).carCost = (tallyCar self (tallyPre self o)).carCost := by
  rw [tally_stages, tallyCaloriesTotal_carCost, tallyDedup_carCost]

lemma tally_emissions (self : ProfileScore) (o : Opt) :
    (self.tally o).emissions = (tallyCar self (tallyPre self o)).emissions := by
  rw [tally_stages, tallyCaloriesTotal_emissions, tallyDedup_emissions]

-- Lower-casing computed once for each concrete mode string in play.

lemma jsToLower_walk : jsToLower "walk" = "walk" := by decide
lemma jsToLower_bicycle : jsToLower "bicycle" = "bicycle" := by decide
lemma jsToLower_bicycle_rent : jsToLower "bicycle_rent" = "bicycle_rent" := by decide
lemma jsToLower_car_upper : jsToLower "CAR" = "car" := by decide
lemma jsToLower_car : jsToLower "car" = "car" := by decide
lemma jsToLower_bus_upper : jsToLower "BUS" = "bus" := by decide
lemma jsToLower_bus : jsToLower "bus" = "bus" := by decide
lemma jsToLower_rail_upper : jsToLower "RAIL" = "rail" := by decide

/-- C3: for every option whose tallied modes contain car, the final emissions
value equals driveDistance / mpg * CO2_PER_GALLON exactly, regardless of any
transit legs also present. -/
theorem c3_car_emissions_override (self : ProfileScore) (o : Opt)
    (h : "car" ∈ (self.tally o).modes) :
    (self.tally o).emissions
      = (self.tally o).driveDistance / self.rates.mpg * CO2_PER_GALLON := by
  have hm : "car" ∈ (tallyPre self o).modes := by
    rw [tally_modes, mem_jsDedup, preDedupModes_eq] at h
    exact h
  rw [tally_emissions, tally_driveDistance]
  unfold tallyCar
  rw [if_pos hm]

theorem c3_witness :
    (defaultScorer.tally oCarTransit).emissions
      = (defaultScorer.tally oCarTransit).driveDistance
          / defaultScorer.rates.mpg * CO2_PER_GALLON :=
  c3_car_emissions_override defaultScorer oCarTransit (by decide)

/-- C6 counterexample: tally does not reset carCost; a stale value survives. -/
theorem c6_counterexample :
    (defaultScorer.tally oStaleCarCost).carCost = some 99
    ∧ some (99 : ℚ) ≠ some (0 : ℚ) := by
  refine ⟨rfl, ?_⟩
  simp only [ne_eq, Option.some.injEq]
  norm_num

/-- C6 amended: all listed accumulator fields except carCost are reset to 0
regardless of prior values; carCost is assigned only when car is among the
modes and otherwise keeps its prior value. -/
theorem c6_reset_except_carCost (self : ProfileScore) (o : Opt) :
    self.tally (zeroAccums o) = self.tally o
    ∧ (self.tally o).carCost
        = (if "car" ∈ (self.tally o).modes
           then some (self.rates.mileageRate * ((self.tally o).driveDistance * METERS_TO_MILES)
             + self.rates.carParkingCost)
           else o.carCost) := by
  constructor
  · rfl
  · by_cases h : "car" ∈ (tallyPre self o).modes
    · have hmem : "car" ∈ (self.tally o).modes := by
        rw [tally_modes, mem_jsDedup, preDedupModes_eq]
        exact h
      rw [if_pos hmem, tally_carCost, tally_driveDistance]
      unfold tallyCar
      rw [if_pos h]
    · have hmem : "car" ∉ (self.tally o).modes := by
        rw [tally_modes, mem_jsDedup, preDedupModes_eq]
        exact h
      rw [if_neg hmem, tally_carCost]
      unfold tallyCar
      rw [if_neg h, tallyPre_carCost]

/-- C9: the tallied modes list has no duplicates, has the same members as the
raw modes list, and orders them by first occurrence. -/
theorem c9_modes_nodup_first_seen (self : ProfileScore) (o : Opt) :
    (self.tally o).modes.Nodup
    ∧ (∀ x, x ∈ (self.tally o).modes ↔ x ∈ preDedupModes self o)
    ∧ (∀ x y, x ∈ (self.tally o).modes → y ∈ (self.tally o).modes →
        ((self.tally o).modes.indexOf x < (self.tally o).modes.indexOf y
          ↔ (preDedupModes self o).indexOf x < (preDedupModes self o).indexOf y)) := by
  refine ⟨?_, ?_, ?_⟩
  · rw [tally_modes]
    exact jsDedup_nodup _
  · intro x
    rw [tally_modes, mem_jsDedup]
  · intro x y hx hy
    rw [tally_modes] at hx hy ⊢
    exact jsDedup_indexOf_lt_iff _ x y hx hy

theorem c9_witness :
    ((defaultScorer.tally oDupModes).modes.indexOf "walk"
        < (defaultScorer.tally oDupModes).modes.indexOf "bus")
      ↔ ((preDedupModes defaultScorer oDupModes).indexOf "walk"
        < (preDedupModes defaultScorer oDupModes).indexOf "bus") :=
  (c9_modes_nodup_first_seen defaultScorer oDupModes).2.2 "walk" "bus"
    (by decide) (by decide)

lemma foldl_totalCalories (o : Opt) (l : List String) (t0 : ℚ) :
    (l.foldl (fun tc mode =>
      if mode = "bicycle" ∨ mode = "bicycle_rent" then tc + o.bikeCalories
      else if mode = "walk" then tc + o.walkCalories else tc) t0)
    = t0 + o.bikeCalories * ((l.count "bicycle" : ℚ) + (l.count "bicycle_rent" : ℚ))
        + o.walkCalories * (l.count "walk" : ℚ) := by
  induction l generalizing t0 with
  | nil => simp
  | cons m l ih =>
    rw [List.foldl_cons, ih]
    by_cases h1 : m = "bicycle"
    · subst h1
      simp [List.count_cons]
      ring
    · by_cases h2 : m = "bicycle_rent"
      · subst h2
        simp [List.count_cons]
        ring
      · by_cases h3 : m = "walk"
        · subst h3
          simp [List.count_cons]
          ring
        · simp [List.count_cons, h1, h2, h3]

lemma totalCaloriesOf_eq (o : Opt) :
    totalCaloriesOf o
      = o.bikeCalories * ((o.modes.count "bicycle" : ℚ) + (o.modes.count "bicycle_rent" : ℚ))
        + o.walkCalories * (o.modes.count "walk" : ℚ) := by
  unfold totalCaloriesOf
  rw [foldl_totalCalories]
  ring

/-- C1 amended: bike calories enter totalCalories once per bicycle-family
mode present (hence twice when both bicycle and bicycle_rent appear), walk
calories once when walk is present. -/
theorem c1_bike_calories_per_mode (self : ProfileScore) (o : Opt) :
    totalCaloriesOf (self.tally o)
      = (if "bicycle" ∈ (self.tally o).modes then (self.tally o).bikeCalories else 0)
        + (if "bicycle_rent" ∈ (self.tally o).modes then (self.tally o).bikeCalories else 0)
        + (if "walk" ∈ (self.tally o).modes then (self.tally o).walkCalories else 0) := by
  have hnd : (self.tally o).modes.Nodup := by
    rw [tally_modes]
    exact jsDedup_nodup _
  have hcount : ∀ s : String,
      (((self.tally o).modes.count s : ℕ) : ℚ)
        = (if s ∈ (self.tally o).modes then 1 else 0) := by
    intro s
    by_cases h : s ∈ (self.tally o).modes
    · rw [if_pos h, List.count_eq_one_of_mem hnd h]
      norm_num
    · rw [if_neg h, List.count_eq_zero_of_not_mem h]
      norm_num
  rw [totalCaloriesOf_eq, hcount, hcount, hcount]
  split_ifs <;> ring

/-- C1 counterexample: an option carrying both bicycle and bicycle_rent modes
doubles the bike calories inside the score loop. -/
theorem c1_counterexample :
    totalCaloriesOf (defaultScorer.tally oBothBikes) = 1200
    ∧ (defaultScorer.tally oBothBikes).bikeCalories
        + (defaultScorer.tally oBothBikes).walkCalories = 600
    ∧ (1200 : ℚ) ≠ 600 := by
  have htally : defaultScorer.tally oBothBikes
      = { oBothBikes with
          modes := ["bicycle", "bicycle_rent", "walk"],
          bikeCalories := 600, calories := 600,
          time := 15, bikeDistance := 14760 } := by
    simp [ProfileScore.tally, tallyCaloriesTotal, tallyDedup, tallyCar,
      tallyBikeCalories, tallyWalkCalories, tallyTransit, tallyEgress,
      tallyAccess, tallyDefaults, addStreetEdges, streetEdgeDistanceForMode, streetEdgeStep,
      jsDedup, dedupIns, caloriesBurned, oBothBikes, bikeAccessLeg,
      rentalEgressLeg, jsToLower_walk, jsToLower_bicycle, jsToLower_bicycle_rent,
      defaultScorer, construct, initialModuleState, mergeFactors, mergeRates,
      DEFAULT_RATES, DEFAULT_TIME_FACTORS, CYCLING_MET, WALKING_MET,
      SECONDS_TO_HOURS, List.foldl]
    norm_num
  refine ⟨?_, ?_, by norm_num⟩
  · rw [htally, totalCaloriesOf_eq]
    simp [List.count_cons, oBothBikes]
    norm_num
  · rw [htally]
    simp [oBothBikes]

/-- C2 counterexample: score starts from time divided by 60, not from the raw
time value. -/
theorem c2_counterexample :
    (defaultScorer.tally oTimeOnly).time = 120
    ∧ defaultScorer.score (defaultScorer.tally oTimeOnly) = 2
    ∧ (2 : ℚ) ≠ 120 := by
  have htally : defaultScorer.tally oTimeOnly = { oTimeOnly with time := 120 } := by
    simp [ProfileScore.tally, tallyCaloriesTotal, tallyDedup, tallyCar,
      tallyBikeCalories, tallyWalkCalories, tallyTransit, tallyEgress,
      tallyAccess, tallyDefaults, addStreetEdges, jsDedup, dedupIns,
      oTimeOnly, jsToLower_walk]
  refine ⟨by rw [htally], ?_, by norm_num⟩
  rw [htally]
  simp [ProfileScore.score, scoreModesFold, totalCaloriesOf, applyFactor,
    oTimeOnly, defaultScorer, construct, initialModuleState, mergeFactors,
    DEFAULT_TIME_FACTORS]
  norm_num

/-- C2 amended: under the default numeric factors, an option with no modes,
no transfers and no cost scores exactly its time divided by 60: the score
stage converts the tallied time from seconds-scale to minutes-scale. -/
theorem c2_score_divides_time_by_sixty (o : Opt)
    (hm : o.modes = []) (ht : o.transfers = 0) (hc : o.cost = 0) :
    defaultScorer.score o = o.time / 60 := by
  unfold ProfileScore.score scoreModesFold totalCaloriesOf
  rw [hm, ht, hc]
  simp [applyFactor, defaultScorer, construct, initialModuleState, mergeFactors,
    DEFAULT_TIME_FACTORS]

theorem c2_witness : defaultScorer.score oBareTime = oBareTime.time / 60 :=
  c2_score_divides_time_by_sixty oBareTime rfl rfl rfl

/-- C7 counterexample: constructing a scorer with a cost override mutates the
shared default object, so a later scorer constructed with no overrides does
not get the hard-coded default cost factor back. -/
theorem c7_counterexample :
    secondConstruction.1.factors.cost = Factor.num 99
    ∧ DEFAULT_TIME_FACTORS.cost = Factor.num 5
    ∧ Factor.num (99 : ℚ) ≠ Factor.num 5 := by
  refine ⟨rfl, rfl, ?_⟩
  intro h
  have := Factor.num.inj h
  norm_num at this

/-- C7 amended: a construction merges its own overrides over the current
shared defaults; only the first construction on a fresh module sees the
hard-coded defaults, and a second construction inherits the first
overrides of the first construction for every key it does not itself override. -/
theorem c7_merge_mutates_defaults :
    (∀ (o1 : ScorerOpts) (k : FactorKey),
      (construct initialModuleState (some o1)).1.factors.get k
        = ((o1.factors.getD {}).get k).getD (DEFAULT_TIME_FACTORS.get k))
    ∧ (∀ (st : ModuleState) (o1 o2 : ScorerOpts) (k : FactorKey),
      (construct (construct st (some o1)).2 (some o2)).1.factors.get k
        = ((o2.factors.getD {}).get k).getD
            (((o1.factors.getD {}).get k).getD (st.defaultTimeFactors.get k)))
    ∧ (∀ (o1 : ScorerOpts) (k : RateKey),
      (construct initialModuleState (some o1)).1.rates.get k
        = ((o1.rates.getD {}).get k).getD (DEFAULT_RATES.get k))
    ∧ (∀ (st : ModuleState) (o1 o2 : ScorerOpts) (k : RateKey),
      (construct (construct st (some o1)).2 (some o2)).1.rates.get k
        = ((o2.rates.getD {}).get k).getD
            (((o1.rates.getD {}).get k).getD (st.defaultRates.get k))) := by
  refine ⟨?_, ?_, ?_, ?_⟩
  · intro o1 k; cases k <;> rfl
  · intro st o1 o2 k; cases k <;> rfl
  · intro o1 k; cases k <;> rfl
  · intro st o1 o2 k; cases k <;> rfl

-- C4 support

lemma sum_map_const_nat {α : Type} (l : List α) (c : ℕ) :
    (l.map (fun _ => c)).sum = l.length * c := by
  induction l with
  | nil => simp
  | cons a l ih => simp [ih, Nat.succ_mul]; ring

lemma length_flatMap_const {α β : Type} (l : List α) (f : α → List β) (c : ℕ)
    (h : ∀ a ∈ l, (f a).length = c) : (l.flatMap f).length = l.length * c := by
  rw [List.length_flatMap]
  calc (l.map (List.length ∘ f)).sum
      = (l.map (fun _ => c)).sum := by
        apply congrArg
        apply List.map_congr_left
        intro a ha
        simp [Function.comp, h a ha]
    _ = l.length * c := sum_map_const_nat l c

/-- C4: processOptions emits, per raw option, one scored result per
access-egress pair when both are present and non-empty, one per access
alternative when egress is absent or empty, and none when access is absent or
empty; the empty input yields the empty output. -/
theorem c4_branch_counts (self : ProfileScore) (options : List Opt) :
    (self.processOptions options).length = (options.map branchCount).sum
    ∧ self.processOptions [] = [] := by
  constructor
  · unfold ProfileScore.processOptions
    rw [List.length_mergeSort]
    unfold expandBranches
    rw [List.length_flatMap]
    congr 1
    apply List.map_congr_left
    intro o _
    simp only [Function.comp]
    cases ha : o.access with
    | none => simp [branchCount, ha]
    | some accs =>
      cases he : o.egress with
      | none =>
        rw [length_flatMap_const accs _ 1 (fun a _ => by simp [he])]
        simp [branchCount, ha, he]
      | some egs =>
        cases egs with
        | nil =>
          rw [length_flatMap_const accs _ 1 (fun a _ => by simp [he])]
          simp [branchCount, ha, he]
        | cons e es =>
          rw [length_flatMap_const accs _ (es.length + 1) (fun a _ => by simp [he])]
          simp [branchCount, ha, he]
  · simp [ProfileScore.processOptions, expandBranches, List.mergeSort_nil]

-- C5 support

lemma scoreLe_trans : ∀ a b c : Opt,
    scoreLe a b = true → scoreLe b c = true → scoreLe a c = true := by
  intro a b c hab hbc
  simp only [scoreLe, decide_eq_true_eq] at *
  exact le_trans hab hbc

lemma scoreLe_total : ∀ a b : Opt, (scoreLe a b || scoreLe b a) = true := by
  intro a b
  simp only [scoreLe, Bool.or_eq_true, decide_eq_true_eq]
  exact le_total _ _

/-- C5: the output of processOptions is pairwise ascending in score, and for
every score value the sub-list of results carrying that score is exactly the
sub-list of expansion branches carrying it, in generation order (stability). -/
theorem c5_sorted_stable (self : ProfileScore) (options : List Opt) :
    List.Pairwise (fun x y => scoreKey x ≤ scoreKey y) (self.processOptions options)
    ∧ ∀ q : ℚ,
        (self.processOptions options).filter (fun r => decide (scoreKey r = q))
          = (expandBranches self options).filter (fun r => decide (scoreKey r = q)) := by
  constructor
  · have h := List.sorted_mergeSort scoreLe_trans scoreLe_total
      (expandBranches self options)
    exact h.imp (fun hab => by simpa [scoreLe, decide_eq_true_eq] using hab)
  · intro q
    have hall : ∀ x ∈ (expandBranches self options).filter
        (fun r => decide (scoreKey r = q)), scoreKey x = q := by
      intro x hx
      have := List.of_mem_filter hx
      simpa using this
    have hpw : ((expandBranches self options).filter
        (fun r => decide (scoreKey r = q))).Pairwise
          (fun a b => scoreLe a b = true) := by
      apply List.pairwise_of_forall_mem_list
      intro a ha b hb
      simp only [scoreLe, decide_eq_true_eq]
      rw [hall a ha, hall b hb]
    have hstable := List.sublist_mergeSort scoreLe_trans scoreLe_total hpw
      (List.filter_sublist (expandBranches self options))
    have hperm := List.mergeSort_perm (expandBranches self options) scoreLe
    have hlen := (hperm.filter (fun r => decide (scoreKey r = q))).length_eq
    have hfself : ((expandBranches self options).filter
        (fun r => decide (scoreKey r = q))).filter
          (fun r => decide (scoreKey r = q))
        = (expandBranches self options).filter (fun r => decide (scoreKey r = q)) := by
      apply List.filter_eq_self.2
      intro a ha
      have h2 := List.of_mem_filter ha
      exact h2
    have hsub2 : ((expandBranches self options).filter
        (fun r => decide (scoreKey r = q))).Sublist
          (((expandBranches self options).mergeSort scoreLe).filter
            (fun r => decide (scoreKey r = q))) := by
      have := hstable.filter (fun r => decide (scoreKey r = q))
      rwa [hfself] at this
    exact ((hsub2.eq_of_length (by rw [← hlen])).symm)

-- C8 support: the street-edge fold agrees with the spec-side annotation.

lemma specSubModes_cons_none (cm : String) (e : StreetEdge) (es : List StreetEdge)
    (h : e.mode = none) :
    specSubModes cm (e :: es) = (cm, e.distance) :: specSubModes cm es := by
  rw [specSubModes, h]

lemma specSubModes_cons_some (cm : String) (e : StreetEdge) (es : List StreetEdge)
    (m : String) (h : e.mode = some m) :
    specSubModes cm (e :: es)
      = ((if m = "" then cm else jsToLower m), e.distance)
          :: specSubModes (if m = "" then cm else jsToLower m) es := by
  rw [specSubModes, h]

lemma foldl_streetEdgeStep (target : String) (edges : List StreetEdge) :
    ∀ (cm : String) (d0 : ℚ),
    (edges.foldl (streetEdgeStep target) (cm, d0)).2
      = d0 + (((specSubModes cm edges).filter
          (fun p => p.1 = target)).map Prod.snd).sum := by
  induction edges with
  | nil => intro cm d0; simp [specSubModes]
  | cons e es ih =>
    intro cm d0
    rw [List.foldl_cons]
    cases hm : e.mode with
    | none =>
      have hstep : streetEdgeStep target (cm, d0) e
          = (cm, if cm = target then d0 + e.distance else d0) := by
        unfold streetEdgeStep
        rw [hm]
      rw [hstep, ih, specSubModes_cons_none cm e es hm]
      by_cases h : cm = target
      · simp [h, List.filter_cons]
        ring
      · simp [h, List.filter_cons]
    | some m =>
      by_cases hm0 : m = ""
      · have hstep : streetEdgeStep target (cm, d0) e
            = (cm, if cm = target then d0 + e.distance else d0) := by
          unfold streetEdgeStep
          rw [hm]
          simp [hm0]
        rw [hstep, ih, specSubModes_cons_some cm e es m hm]
        simp only [hm0, if_true, ite_true]
        by_cases h : cm = target
        · simp [h, List.filter_cons]
          ring
        · simp [h, List.filter_cons]
      · have hstep : streetEdgeStep target (cm, d0) e
            = (jsToLower m, if jsToLower m = target then d0 + e.distance else d0) := by
          unfold streetEdgeStep
          rw [hm]
          simp [hm0]
        rw [hstep, ih, specSubModes_cons_some cm e es m hm]
        simp only [hm0, if_false, ite_false]
        by_cases h : jsToLower m = target
        · simp [h, List.filter_cons]
          ring
        · simp [h, List.filter_cons]

/-- C8: a bicycle_rent leg with present street edges records both the
bicycle_rent and the synthetic walk mode and accumulates bike and walk
distance separately; the street-edge distance helper sums distances by the
current sub-mode, defaulting to walk; Scenario C evaluates as specified. -/
theorem c8_bicycle_rent_street_edges :
    (∀ (o : Opt) (edges : List StreetEdge),
      addStreetEdges o "bicycle_rent" (some edges)
        = { o with modes := o.modes ++ ["bicycle_rent", "walk"],
                   bikeDistance := o.bikeDistance + streetEdgeDistanceForMode edges "bicycle",
                   walkDistance := o.walkDistance + streetEdgeDistanceForMode edges "walk" })
    ∧ (∀ (edges : List StreetEdge) (target : String),
      streetEdgeDistanceForMode edges target = specModeDistance target edges)
    ∧ ((defaultScorer.tally oScenarioC).bikeDistance = 1000
       ∧ (defaultScorer.tally oScenarioC).walkDistance = 100
       ∧ "bicycle_rent" ∈ (defaultScorer.tally oScenarioC).modes
       ∧ "walk" ∈ (defaultScorer.tally oScenarioC).modes) := by
  refine ⟨?_, ?_, ?_, ?_, ?_, ?_⟩
  · intro o edges
    simp [addStreetEdges]
  · intro edges target
    unfold streetEdgeDistanceForMode specModeDistance
    rw [foldl_streetEdgeStep]
    ring
  · simp [ProfileScore.tally, tallyCaloriesTotal, tallyDedup, tallyCar,
      tallyBikeCalories, tallyWalkCalories, tallyTransit, tallyEgress,
      tallyAccess, tallyDefaults, addStreetEdges, streetEdgeDistanceForMode,
      streetEdgeStep, jsDedup, dedupIns, oScenarioC, jsToLower_walk,
      jsToLower_bicycle, jsToLower_bicycle_rent, caloriesBurned]
  · simp [ProfileScore.tally, tallyCaloriesTotal, tallyDedup, tallyCar,
      tallyBikeCalories, tallyWalkCalories, tallyTransit, tallyEgress,
      tallyAccess, tallyDefaults, addStreetEdges, streetEdgeDistanceForMode,
      streetEdgeStep, jsDedup, dedupIns, oScenarioC, jsToLower_walk,
      jsToLower_bicycle, jsToLower_bicycle_rent, caloriesBurned]
  · decide
  · decide

lemma eqExceptTA_update (p : Opt) (t : ℚ) (acc : Option (List Leg)) :
    EqExceptTA { p with time := t, access := acc } p :=
  ⟨rfl, rfl, rfl, rfl, rfl, rfl, rfl, rfl, rfl, rfl, rfl, rfl, rfl, rfl, rfl, rfl, rfl, rfl⟩

lemma addStreetEdges_frame (q p : Opt) (h : EqExceptTA q p)
    (m : String) (se : Option (List StreetEdge)) :
    addStreetEdges q m se
      = { addStreetEdges p m se with time := q.time, access := q.access } := by
  obtain ⟨h1, h2, h3, h4, h5, h6, h7, h8, h9, h10, h11, h12, h13, h14, h15, h16, h17, h18⟩ := h
  rcases se with _ | edges
  · dsimp only [addStreetEdges]
    apply Opt.ext <;> simp [h1, h2, h3, h4, h5, h6, h7, h8, h9, h10, h11, h12, h13,
      h14, h15, h16, h17, h18]
  · dsimp only [addStreetEdges]
    split_ifs <;>
      (apply Opt.ext <;> simp [h1, h2, h3, h4, h5, h6, h7, h8, h9, h10, h11, h12,
        h13, h14, h15, h16, h17, h18])

lemma addStreetEdges_time (o : Opt) (m : String) (se : Option (List StreetEdge)) :
    (addStreetEdges o m se).time = o.time := by
  rcases se with _ | edges
  · rfl
  · dsimp only [addStreetEdges]
    split_ifs <;> rfl

lemma tallyEgress_frame (q p : Opt) (h : EqExceptTA q p) :
    tallyEgress q
      = { tallyEgress p with time := q.time + ((tallyEgress p).time - p.time), access := q.access } := by
  have heg := h.1
  unfold tallyEgress
  rw [heg]
  cases hp : p.egress with
  | none =>
    obtain ⟨h1, h2, h3, h4, h5, h6, h7, h8, h9, h10, h11, h12, h13, h14, h15, h16, h17, h18⟩ := h
    apply Opt.ext <;>
      simp [h1, h2, h3, h4, h5, h6, h7, h8, h9, h10, h11, h12, h13, h14, h15, h16,
        h17, h18, hp] <;> ring_nf
  | some legs =>
    cases legs with
    | nil =>
      obtain ⟨h1, h2, h3, h4, h5, h6, h7, h8, h9, h10, h11, h12, h13, h14, h15, h16, h17, h18⟩ := h
      apply Opt.ext <;>
        simp [h1, h2, h3, h4, h5, h6, h7, h8, h9, h10, h11, h12, h13, h14, h15, h16,
          h17, h18, hp] <;> ring_nf
    | cons e rest =>
      dsimp only
      rw [addStreetEdges_frame q p h, addStreetEdges_time]
      apply Opt.ext <;> simp <;> ring_nf

lemma transitStep_time (self : ProfileScore) (o : Opt) (seg : TransitSegment) :
    (transitStep self o seg).time
      = o.time + seg.walkTime + (seg.waitStats.avg + seg.rideStats.avg) := by
  dsimp only [transitStep]
  cases o.trips
  · rfl
  · dsimp only
    split <;> rfl

lemma transitStep_frame (self : ProfileScore) (seg : TransitSegment)
    (q p : Opt) (h : EqExceptTA q p) :
    transitStep self q seg
      = { transitStep self p seg with time := q.time + ((transitStep self p seg).time - p.time), access := q.access } := by
  obtain ⟨h1, h2, h3, h4, h5, h6, h7, h8, h9, h10, h11, h12, h13, h14, h15, h16, h17, h18⟩ := h
  rw [transitStep_time]
  dsimp only [transitStep]
  rw [h8, h17]
  cases hp : p.trips with
  | none =>
    dsimp only
    apply Opt.ext <;> simp [h1, h2, h3, h4, h5, h6, h7, h8, h9, h10, h11, h12, h13,
      h14, h15, h16, h17, h18] <;> ring_nf
  | some v =>
    dsimp only
    split <;>
      (apply Opt.ext <;> simp [h1, h2, h3, h4, h5, h6, h7, h8, h9, h10, h11, h12,
        h13, h14, h15, h16, h17, h18, hp] <;> ring_nf)

lemma foldl_transitStep_frame (self : ProfileScore) (segs : List TransitSegment) :
    ∀ (q p : Opt), EqExceptTA q p →
    segs.foldl (transitStep self) q
      = { segs.foldl (transitStep self) p with time := q.time + ((segs.foldl (transitStep self) p).time - p.time), access := q.access } := by
  induction segs with
  | nil =>
    intro q p h
    obtain ⟨h1, h2, h3, h4, h5, h6, h7, h8, h9, h10, h11, h12, h13, h14, h15, h16, h17, h18⟩ := h
    dsimp only [List.foldl]
    apply Opt.ext <;> simp [h1, h2, h3, h4, h5, h6, h7, h8, h9, h10, h11, h12, h13,
      h14, h15, h16, h17, h18] <;> ring_nf
  | cons s segs ih =>
    intro q p h
    rw [List.foldl_cons, List.foldl_cons, transitStep_frame self s q p h,
      ih _ (transitStep self p s) (eqExceptTA_update _ _ _)]
    apply Opt.ext <;> simp <;> ring_nf

lemma faresStep_frame (fare : Option Fare) (q p : Opt) (h : EqExceptTA q p) :
    faresStep q fare = { faresStep p fare with time := q.time, access := q.access } := by
  obtain ⟨h1, h2, h3, h4, h5, h6, h7, h8, h9, h10, h11, h12, h13, h14, h15, h16, h17, h18⟩ := h
  rcases fare with _ | f
  · apply Opt.ext <;> simp [faresStep, h1, h2, h3, h4, h5, h6, h7, h8, h9, h10, h11,
      h12, h13, h14, h15, h16, h17, h18]
  · dsimp only [faresStep]
    cases f.peak
    · apply Opt.ext <;> simp [h1, h2, h3, h4, h5, h6, h7, h8, h9, h10, h11, h12,
        h13, h14, h15, h16, h17, h18]
    · dsimp only
      split_ifs <;>
        (apply Opt.ext <;> simp [h1, h2, h3, h4, h5, h6, h7, h8, h9, h10, h11, h12,
          h13, h14, h15, h16, h17, h18])

lemma foldl_faresStep_frame (fares : List (Option Fare)) :
    ∀ (q p : Opt), EqExceptTA q p →
    fares.foldl faresStep q
      = { fares.foldl faresStep p with time := q.time, access := q.access } := by
  induction fares with
  | nil =>
    intro q p h
    obtain ⟨h1, h2, h3, h4, h5, h6, h7, h8, h9, h10, h11, h12, h13, h14, h15, h16, h17, h18⟩ := h
    dsimp only [List.foldl]
    apply Opt.ext <;> simp [h1, h2, h3, h4, h5, h6, h7, h8, h9, h10, h11, h12, h13,
      h14, h15, h16, h17, h18]
  | cons f fares ih =>
    intro q p h
    rw [List.foldl_cons, List.foldl_cons, faresStep_frame f q p h,
      ih _ (faresStep p f) (eqExceptTA_update _ _ _)]

lemma faresBlock_frame (q p : Opt) (h : EqExceptTA q p) :
    faresBlock q = { faresBlock p with time := q.time, access := q.access } := by
  have hf := h.2.2.1
  unfold faresBlock
  rw [hf]
  cases hp : p.fares with
  | none =>
    obtain ⟨h1, h2, h3, h4, h5, h6, h7, h8, h9, h10, h11, h12, h13, h14, h15, h16, h17, h18⟩ := h
    apply Opt.ext <;> simp [h1, h2, h3, h4, h5, h6, h7, h8, h9, h10, h11, h12, h13,
      h14, h15, h16, h17, h18]
  | some fares =>
    dsimp only
    exact foldl_faresStep_frame fares q p h

lemma foldl_transitStep_time_base (self : ProfileScore) (segs : List TransitSegment) (o : Opt) :
    (segs.foldl (transitStep self) o).time - o.time
      = (segs.map (fun s => s.walkTime + (s.waitStats.avg + s.rideStats.avg))).sum := by
  induction segs generalizing o with
  | nil => simp
  | cons s segs ih =>
    rw [List.foldl_cons, List.map_cons, List.sum_cons, ← ih (transitStep self o s),
      transitStep_time]
    ring

lemma faresBlock_time (o : Opt) : (faresBlock o).time = o.time := by
  have : ∀ (fares : List (Option Fare)) (x : Opt), (fares.foldl faresStep x).time = x.time := by
    intro fares
    induction fares with
    | nil => intro x; rfl
    | cons f fares ih =>
      intro x
      rw [List.foldl_cons, ih]
      rcases f with _ | g
      · rfl
      · dsimp only [faresStep]
        cases g.peak
        · rfl
        · dsimp only
          split <;> rfl
  unfold faresBlock
  cases hp : o.fares with
  | none => rfl
  | some fares => exact this fares o

lemma tallyTransit_frame (self : ProfileScore) (q p : Opt) (h : EqExceptTA q p) :
    tallyTransit self q
      = { tallyTransit self p with time := q.time + ((tallyTransit self p).time - p.time), access := q.access } := by
  have htr := h.2.1
  unfold tallyTransit
  rw [htr]
  cases hp : p.transit with
  | none =>
    obtain ⟨h1, h2, h3, h4, h5, h6, h7, h8, h9, h10, h11, h12, h13, h14, h15, h16, h17, h18⟩ := h
    apply Opt.ext <;> simp [h1, h2, h3, h4, h5, h6, h7, h8, h9, h10, h11, h12, h13,
      h14, h15, h16, h17, h18] <;> ring_nf
  | some xs =>
    cases xs with
    | nil =>
      obtain ⟨h1, h2, h3, h4, h5, h6, h7, h8, h9, h10, h11, h12, h13, h14, h15, h16, h17, h18⟩ := h
      apply Opt.ext <;> simp [h1, h2, h3, h4, h5, h6, h7, h8, h9, h10, h11, h12, h13,
        h14, h15, h16, h17, h18] <;> ring_nf
    | cons s ss =>
      dsimp only
      have hupd : EqExceptTA
          { q with transit := some (s :: ss), transfers := ((s :: ss).length : ℚ) - 1, transitCost := 0, trips := none }
          { p with transit := some (s :: ss), transfers := ((s :: ss).length : ℚ) - 1, transitCost := 0, trips := none } := by
        obtain ⟨h1, h2, h3, h4, h5, h6, h7, h8, h9, h10, h11, h12, h13, h14, h15, h16, h17, h18⟩ := h
        exact ⟨h1, rfl, h3, h4, h5, h6, h7, h8, h9, rfl, rfl, h12, h13, h14, h15, h16, rfl, h18⟩
      rw [foldl_transitStep_frame self (s :: ss) _ _ hupd]
      rw [faresBlock_frame _ _ (eqExceptTA_update _ _ _)]
      apply Opt.ext <;> simp [faresBlock_time] <;> ring_nf

lemma tallyWalkCalories_time (self : ProfileScore) (o : Opt) :
    (tallyWalkCalories self o).time = o.time := by
  unfold tallyWalkCalories
  split <;> rfl

lemma tallyWalkCalories_frame (self : ProfileScore) (q p : Opt) (h : EqExceptTA q p) :
    tallyWalkCalories self q
      = { tallyWalkCalories self p with time := q.time, access := q.access } := by
  obtain ⟨h1, h2, h3, h4, h5, h6, h7, h8, h9, h10, h11, h12, h13, h14, h15, h16, h17, h18⟩ := h
  unfold tallyWalkCalories
  rw [h8, h15]
  split_ifs <;>
    (apply Opt.ext <;> simp [h1, h2, h3, h4, h5, h6, h7, h8, h9, h10, h11, h12, h13,
      h14, h15, h16, h17, h18])

lemma tallyBikeCalories_time (self : ProfileScore) (o : Opt) :
    (tallyBikeCalories self o).time = o.time := by
  unfold tallyBikeCalories
  split <;> rfl

lemma tallyBikeCalories_frame (self : ProfileScore) (q p : Opt) (h : EqExceptTA q p) :
    tallyBikeCalories self q
      = { tallyBikeCalories self p with time := q.time, access := q.access } := by
  obtain ⟨h1, h2, h3, h4, h5, h6, h7, h8, h9, h10, h11, h12, h13, h14, h15, h16, h17, h18⟩ := h
  unfold tallyBikeCalories
  rw [h8, h13]
  split_ifs <;>
    (apply Opt.ext <;> simp [h1, h2, h3, h4, h5, h6, h7, h8, h9, h10, h11, h12, h13,
      h14, h15, h16, h17, h18])

lemma tallyCar_time (self : ProfileScore) (o : Opt) :
    (tallyCar self o).time = o.time := by
  unfold tallyCar
  split <;> rfl

lemma tallyCar_frame (self : ProfileScore) (q p : Opt) (h : EqExceptTA q p) :
    tallyCar self q = { tallyCar self p with time := q.time, access := q.access } := by
  obtain ⟨h1, h2, h3, h4, h5, h6, h7, h8, h9, h10, h11, h12, h13, h14, h15, h16, h17, h18⟩ := h
  unfold tallyCar
  rw [h8, h14, h6]
  split_ifs <;>
    (apply Opt.ext <;> simp [h1, h2, h3, h4, h5, h6, h7, h8, h9, h10, h11, h12, h13,
      h14, h15, h16, h17, h18])

lemma tallyDedup_frame (q p : Opt) (h : EqExceptTA q p) :
    tallyDedup q = { tallyDedup p with time := q.time, access := q.access } := by
  obtain ⟨h1, h2, h3, h4, h5, h6, h7, h8, h9, h10, h11, h12, h13, h14, h15, h16, h17, h18⟩ := h
  unfold tallyDedup
  apply Opt.ext <;> simp [h1, h2, h3, h4, h5, h6, h7, h8, h9, h10, h11, h12, h13,
    h14, h15, h16, h17, h18]

lemma tallyCaloriesTotal_frame (q p : Opt) (h : EqExceptTA q p) :
    tallyCaloriesTotal q = { tallyCaloriesTotal p with time := q.time, access := q.access } := by
  obtain ⟨h1, h2, h3, h4, h5, h6, h7, h8, h9, h10, h11, h12, h13, h14, h15, h16, h17, h18⟩ := h
  unfold tallyCaloriesTotal
  apply Opt.ext <;> simp [h1, h2, h3, h4, h5, h6, h7, h8, h9, h10, h11, h12, h13,
    h14, h15, h16, h17, h18]

lemma tallyDedup_time (o : Opt) : (tallyDedup o).time = o.time := rfl

lemma tallyCaloriesTotal_time (o : Opt) : (tallyCaloriesTotal o).time = o.time := rfl

lemma tallyRest_frame (self : ProfileScore) (q p : Opt) (h : EqExceptTA q p) :
    tallyCaloriesTotal (tallyDedup (tallyCar self (tallyBikeCalories self (tallyWalkCalories self (tallyTransit self (tallyEgress q))))))
      = { tallyCaloriesTotal (tallyDedup (tallyCar self (tallyBikeCalories self (tallyWalkCalories self (tallyTransit self (tallyEgress p)))))) with
          time := q.time + ((tallyCaloriesTotal (tallyDedup (tallyCar self (tallyBikeCalories self (tallyWalkCalories self (tallyTransit self (tallyEgress p))))))).time - p.time), access := q.access } := by
  rw [tallyEgress_frame q p h,
    tallyTransit_frame self _ _ (eqExceptTA_update _ _ _),
    tallyWalkCalories_frame self _ _ (eqExceptTA_update _ _ _),
    tallyBikeCalories_frame self _ _ (eqExceptTA_update _ _ _),
    tallyCar_frame self _ _ (eqExceptTA_update _ _ _),
    tallyDedup_frame _ _ (eqExceptTA_update _ _ _),
    tallyCaloriesTotal_frame _ _ (eqExceptTA_update _ _ _)]
  apply Opt.ext <;>
    simp [tallyWalkCalories_time, tallyBikeCalories_time, tallyCar_time,
      tallyDedup_time, tallyCaloriesTotal_time] <;> ring_nf

lemma tallyAccess_noEdges (o : Opt) (leg : Leg) (rest : List Leg)
    (ha : o.access = some (leg :: rest)) (hse : leg.streetEdges = none) :
    tallyAccess (tallyDefaults o)
      = { tallyAccess (tallyDefaults { o with access := none }) with time := leg.time, access := some (leg :: rest) } := by
  unfold tallyAccess tallyDefaults
  dsimp only
  rw [ha]
  dsimp only
  rw [hse]
  dsimp only [addStreetEdges]
  apply Opt.ext <;> simp [ha] <;> ring_nf

lemma tally_noEdges_master (self : ProfileScore) (o : Opt) (leg : Leg) (rest : List Leg)
    (ha : o.access = some (leg :: rest)) (hse : leg.streetEdges = none) :
    self.tally o
      = { self.tally { o with access := none } with time := leg.time + (self.tally { o with access := none }).time, access := some (leg :: rest) } := by
  have hAnone : ∀ x : Opt, x.access = none → tallyAccess x = x := by
    intro x hx
    unfold tallyAccess
    rw [hx]
  show tallyCaloriesTotal (tallyDedup (tallyCar self (tallyBikeCalories self
    (tallyWalkCalories self (tallyTransit self (tallyEgress (tallyAccess
      (tallyDefaults o)))))))) = _
  rw [tallyAccess_noEdges o leg rest ha hse,
    hAnone (tallyDefaults { o with access := none }) rfl,
    tallyRest_frame self _ _ (eqExceptTA_update _ _ _)]
  apply Opt.ext <;> simp [ProfileScore.tally, hAnone, tallyDefaults] <;> ring_nf

lemma tally_empty (self : ProfileScore) (o2 : Opt) (hacc : o2.access = none)
    (he : o2.egress = none) (htr : o2.transit = none) :
    (self.tally o2).modes = [] ∧ (self.tally o2).walkCalories = 0
      ∧ (self.tally o2).time = 0 := by
  refine ⟨?_, ?_, ?_⟩ <;>
    simp [ProfileScore.tally, tallyCaloriesTotal, tallyDedup, tallyCar,
      tallyBikeCalories, tallyWalkCalories, tallyTransit, tallyEgress,
      tallyAccess, tallyDefaults, jsDedup, dedupIns, hacc, he, htr]

lemma eqExceptTAE_update (p : Opt) (t : ℚ) (acc eg : Option (List Leg)) :
    EqExceptTAE { p with time := t, access := acc, egress := eg } p :=
  ⟨rfl, rfl, rfl, rfl, rfl, rfl, rfl, rfl, rfl, rfl, rfl, rfl, rfl, rfl, rfl, rfl, rfl⟩

lemma transitStep_frame3 (self : ProfileScore) (seg : TransitSegment)
    (q p : Opt) (h : EqExceptTAE q p) :
    transitStep self q seg
      = { transitStep self p seg with time := q.time + ((transitStep self p seg).time - p.time), access := q.access, egress := q.egress } := by
  obtain ⟨h1, h2, h3, h4, h5, h6, h7, h8, h9, h10, h11, h12, h13, h14, h15, h16, h17⟩ := h
  rw [transitStep_time]
  dsimp only [transitStep]
  rw [h7, h16]
  cases hp : p.trips with
  | none =>
    dsimp only
    apply Opt.ext <;> simp [h1, h2, h3, h4, h5, h6, h7, h8, h9, h10, h11, h12, h13,
      h14, h15, h16, h17] <;> ring_nf
  | some v =>
    dsimp only
    split <;>
      (apply Opt.ext <;> simp [h1, h2, h3, h4, h5, h6, h7, h8, h9, h10, h11, h12,
        h13, h14, h15, h16, h17, hp] <;> ring_nf)

lemma foldl_transitStep_frame3 (self : ProfileScore) (segs : List TransitSegment) :
    ∀ (q p : Opt), EqExceptTAE q p →
    segs.foldl (transitStep self) q
      = { segs.foldl (transitStep self) p with time := q.time + ((segs.foldl (transitStep self) p).time - p.time), access := q.access, egress := q.egress } := by
  induction segs with
  | nil =>
    intro q p h
    obtain ⟨h1, h2, h3, h4, h5, h6, h7, h8, h9, h10, h11, h12, h13, h14, h15, h16, h17⟩ := h
    dsimp only [List.foldl]
    apply Opt.ext <;> simp [h1, h2, h3, h4, h5, h6, h7, h8, h9, h10, h11, h12, h13,
      h14, h15, h16, h17] <;> ring_nf
  | cons s segs ih =>
    intro q p h
    rw [List.foldl_cons, List.foldl_cons, transitStep_frame3 self s q p h,
      ih _ (transitStep self p s) (eqExceptTAE_update _ _ _ _)]
    apply Opt.ext <;> simp <;> ring_nf

lemma faresStep_frame3 (fare : Option Fare) (q p : Opt) (h : EqExceptTAE q p) :
    faresStep q fare = { faresStep p fare with time := q.time, access := q.access, egress := q.egress } := by
  obtain ⟨h1, h2, h3, h4, h5, h6, h7, h8, h9, h10, h11, h12, h13, h14, h15, h16, h17⟩ := h
  rcases fare with _ | f
  · apply Opt.ext <;> simp [faresStep, h1, h2, h3, h4, h5, h6, h7, h8, h9, h10, h11,
      h12, h13, h14, h15, h16, h17]
  · dsimp only [faresStep]
    cases f.peak
    · apply Opt.ext <;> simp [h1, h2, h3, h4, h5, h6, h7, h8, h9, h10, h11, h12,
        h13, h14, h15, h16, h17]
    · dsimp only
      split_ifs <;>
        (apply Opt.ext <;> simp [h1, h2, h3, h4, h5, h6, h7, h8, h9, h10, h11, h12,
          h13, h14, h15, h16, h17])

lemma foldl_faresStep_frame3 (fares : List (Option Fare)) :
    ∀ (q p : Opt), EqExceptTAE q p →
    fares.foldl faresStep q
      = { fares.foldl faresStep p with time := q.time, access := q.access, egress := q.egress } := by
  induction fares with
  | nil =>
    intro q p h
    obtain ⟨h1, h2, h3, h4, h5, h6, h7, h8, h9, h10, h11, h12, h13, h14, h15, h16, h17⟩ := h
    dsimp only [List.foldl]
    apply Opt.ext <;> simp [h1, h2, h3, h4, h5, h6, h7, h8, h9, h10, h11, h12, h13,
      h14, h15, h16, h17]
  | cons f fares ih =>
    intro q p h
    rw [List.foldl_cons, List.foldl_cons, faresStep_frame3 f q p h,
      ih _ (faresStep p f) (eqExceptTAE_update _ _ _ _)]

lemma faresBlock_frame3 (q p : Opt) (h : EqExceptTAE q p) :
    faresBlock q = { faresBlock p with time := q.time, access := q.access, egress := q.egress } := by
  have hf := h.2.1
  unfold faresBlock
  rw [hf]
  cases hp : p.fares with
  | none =>
    obtain ⟨h1, h2, h3, h4, h5, h6, h7, h8, h9, h10, h11, h12, h13, h14, h15, h16, h17⟩ := h
    apply Opt.ext <;> simp [h1, h2, h3, h4, h5, h6, h7, h8, h9, h10, h11, h12, h13,
      h14, h15, h16, h17]
  | some fares =>
    dsimp only
    exact foldl_faresStep_frame3 fares q p h

lemma tallyTransit_frame3 (self : ProfileScore) (q p : Opt) (h : EqExceptTAE q p) :
    tallyTransit self q
      = { tallyTransit self p with time := q.time + ((tallyTransit self p).time - p.time), access := q.access, egress := q.egress } := by
  have htr := h.1
  unfold tallyTransit
  rw [htr]
  cases hp : p.transit with
  | none =>
    obtain ⟨h1, h2, h3, h4, h5, h6, h7, h8, h9, h10, h11, h12, h13, h14, h15, h16, h17⟩ := h
    apply Opt.ext <;> simp [h1, h2, h3, h4, h5, h6, h7, h8, h9, h10, h11, h12, h13,
      h14, h15, h16, h17] <;> ring_nf
  | some xs =>
    cases xs with
    | nil =>
      obtain ⟨h1, h2, h3, h4, h5, h6, h7, h8, h9, h10, h11, h12, h13, h14, h15, h16, h17⟩ := h
      apply Opt.ext <;> simp [h1, h2, h3, h4, h5, h6, h7, h8, h9, h10, h11, h12, h13,
        h14, h15, h16, h17] <;> ring_nf
    | cons s ss =>
      dsimp only
      have hupd : EqExceptTAE
          { q with transit := some (s :: ss), transfers := ((s :: ss).length : ℚ) - 1, transitCost := 0, trips := none }
          { p with transit := some (s :: ss), transfers := ((s :: ss).length : ℚ) - 1, transitCost := 0, trips := none } := by
        obtain ⟨h1, h2, h3, h4, h5, h6, h7, h8, h9, h10, h11, h12, h13, h14, h15, h16, h17⟩ := h
        exact ⟨rfl, h2, h3, h4, h5, h6, h7, h8, rfl, rfl, h11, h12, h13, h14, h15, rfl, h17⟩
      rw [foldl_transitStep_frame3 self (s :: ss) _ _ hupd]
      rw [faresBlock_frame3 _ _ (eqExceptTAE_update _ _ _ _)]
      apply Opt.ext <;> simp [faresBlock_time] <;> ring_nf

lemma tallyWalkCalories_frame3 (self : ProfileScore) (q p : Opt) (h : EqExceptTAE q p) :
    tallyWalkCalories self q
      = { tallyWalkCalories self p with time := q.time, access := q.access, egress := q.egress } := by
  obtain ⟨h1, h2, h3, h4, h5, h6, h7, h8, h9, h10, h11, h12, h13, h14, h15, h16, h17⟩ := h
  unfold tallyWalkCalories
  rw [h7, h14]
  split_ifs <;>
    (apply Opt.ext <;> simp [h1, h2, h3, h4, h5, h6, h7, h8, h9, h10, h11, h12, h13,
      h14, h15, h16, h17])

lemma tallyBikeCalories_frame3 (self : ProfileScore) (q p : Opt) (h : EqExceptTAE q p) :
    tallyBikeCalories self q
      = { tallyBikeCalories self p with time := q.time, access := q.access, egress := q.egress } := by
  obtain ⟨h1, h2, h3, h4, h5, h6, h7, h8, h9, h10, h11, h12, h13, h14, h15, h16, h17⟩ := h
  unfold tallyBikeCalories
  rw [h7, h12]
  split_ifs <;>
    (apply Opt.ext <;> simp [h1, h2, h3, h4, h5, h6, h7, h8, h9, h10, h11, h12, h13,
      h14, h15, h16, h17])

lemma tallyCar_frame3 (self : ProfileScore) (q p : Opt) (h : EqExceptTAE q p) :
    tallyCar self q = { tallyCar self p with time := q.time, access := q.access, egress := q.egress } := by
  obtain ⟨h1, h2, h3, h4, h5, h6, h7, h8, h9, h10, h11, h12, h13, h14, h15, h16, h17⟩ := h
  unfold tallyCar
  rw [h7, h13, h5]
  split_ifs <;>
    (apply Opt.ext <;> simp [h1, h2, h3, h4, h5, h6, h7, h8, h9, h10, h11, h12, h13,
      h14, h15, h16, h17])

lemma tallyDedup_frame3 (q p : Opt) (h : EqExceptTAE q p) :
    tallyDedup q = { tallyDedup p with time := q.time, access := q.access, egress := q.egress } := by
  obtain ⟨h1, h2, h3, h4, h5, h6, h7, h8, h9, h10, h11, h12, h13, h14, h15, h16, h17⟩ := h
  unfold tallyDedup
  apply Opt.ext <;> simp [h1, h2, h3, h4, h5, h6, h7, h8, h9, h10, h11, h12, h13,
    h14, h15, h16, h17]

lemma tallyCaloriesTotal_frame3 (q p : Opt) (h : EqExceptTAE q p) :
    tallyCaloriesTotal q = { tallyCaloriesTotal p with time := q.time, access := q.access, egress := q.egress } := by
  obtain ⟨h1, h2, h3, h4, h5, h6, h7, h8, h9, h10, h11, h12, h13, h14, h15, h16, h17⟩ := h
  unfold tallyCaloriesTotal
  apply Opt.ext <;> simp [h1, h2, h3, h4, h5, h6, h7, h8, h9, h10, h11, h12, h13,
    h14, h15, h16, h17]

lemma tallyPostEgress_frame (self : ProfileScore) (q p : Opt) (h : EqExceptTAE q p) :
    tallyCaloriesTotal (tallyDedup (tallyCar self (tallyBikeCalories self (tallyWalkCalories self (tallyTransit self q)))))
      = { tallyCaloriesTotal (tallyDedup (tallyCar self (tallyBikeCalories self (tallyWalkCalories self (tallyTransit self p))))) with
          time := q.time + ((tallyCaloriesTotal (tallyDedup (tallyCar self (tallyBikeCalories self (tallyWalkCalories self (tallyTransit self p)))))).time - p.time), access := q.access, egress := q.egress } := by
  rw [tallyTransit_frame3 self q p h,
    tallyWalkCalories_frame3 self _ _ (eqExceptTAE_update _ _ _ _),
    tallyBikeCalories_frame3 self _ _ (eqExceptTAE_update _ _ _ _),
    tallyCar_frame3 self _ _ (eqExceptTAE_update _ _ _ _),
    tallyDedup_frame3 _ _ (eqExceptTAE_update _ _ _ _),
    tallyCaloriesTotal_frame3 _ _ (eqExceptTAE_update _ _ _ _)]
  apply Opt.ext <;>
    simp [tallyWalkCalories_time, tallyBikeCalories_time, tallyCar_time,
      tallyDedup_time, tallyCaloriesTotal_time] <;> ring_nf

lemma addStreetEdges_access (o : Opt) (m : String) (se : Option (List StreetEdge)) :
    (addStreetEdges o m se).access = o.access := by
  rcases se with _ | edges
  · rfl
  · dsimp only [addStreetEdges]
    split_ifs <;> rfl

lemma addStreetEdges_egress (o : Opt) (m : String) (se : Option (List StreetEdge)) :
    (addStreetEdges o m se).egress = o.egress := by
  rcases se with _ | edges
  · rfl
  · dsimp only [addStreetEdges]
    split_ifs <;> rfl

lemma tallyAccess_access (o : Opt) : (tallyAccess o).access = o.access := by
  unfold tallyAccess
  cases h : o.access with
  | none => exact h
  | some xs =>
    cases xs with
    | nil => exact h
    | cons a rest => simp [addStreetEdges_access, h]

lemma tallyAccess_egress (o : Opt) : (tallyAccess o).egress = o.egress := by
  unfold tallyAccess
  cases h : o.access with
  | none => rfl
  | some xs =>
    cases xs with
    | nil => rfl
    | cons a rest => simp [addStreetEdges_egress]

lemma addStreetEdges_frame3 (q p : Opt) (h : EqExceptTAE q p)
    (m : String) (se : Option (List StreetEdge)) :
    addStreetEdges q m se
      = { addStreetEdges p m se with time := q.time, access := q.access, egress := q.egress } := by
  obtain ⟨h1, h2, h3, h4, h5, h6, h7, h8, h9, h10, h11, h12, h13, h14, h15, h16, h17⟩ := h
  rcases se with _ | edges
  · dsimp only [addStreetEdges]
    apply Opt.ext <;> simp [h1, h2, h3, h4, h5, h6, h7, h8, h9, h10, h11, h12, h13,
      h14, h15, h16, h17]
  · dsimp only [addStreetEdges]
    split_ifs <;>
      (apply Opt.ext <;> simp [h1, h2, h3, h4, h5, h6, h7, h8, h9, h10, h11, h12,
        h13, h14, h15, h16, h17])

lemma tallyAccess_frame3 (q p : Opt) (h : EqExceptTAE q p) (hacc : q.access = p.access) :
    tallyAccess q
      = { tallyAccess p with time := q.time + ((tallyAccess p).time - p.time), access := q.access, egress := q.egress } := by
  unfold tallyAccess
  rw [hacc]
  cases hp : p.access with
  | none =>
    obtain ⟨h1, h2, h3, h4, h5, h6, h7, h8, h9, h10, h11, h12, h13, h14, h15, h16, h17⟩ := h
    apply Opt.ext <;> simp [h1, h2, h3, h4, h5, h6, h7, h8, h9, h10, h11, h12, h13,
      h14, h15, h16, h17, hacc, hp] <;> ring_nf
  | some xs =>
    cases xs with
    | nil =>
      obtain ⟨h1, h2, h3, h4, h5, h6, h7, h8, h9, h10, h11, h12, h13, h14, h15, h16, h17⟩ := h
      apply Opt.ext <;> simp [h1, h2, h3, h4, h5, h6, h7, h8, h9, h10, h11, h12, h13,
        h14, h15, h16, h17, hacc, hp] <;> ring_nf
    | cons a rest =>
      dsimp only
      rw [addStreetEdges_frame3 q p ⟨h.1, h.2.1, h.2.2.1, h.2.2.2.1, h.2.2.2.2.1,
        h.2.2.2.2.2.1, h.2.2.2.2.2.2.1, h.2.2.2.2.2.2.2.1, h.2.2.2.2.2.2.2.2.1,
        h.2.2.2.2.2.2.2.2.2.1, h.2.2.2.2.2.2.2.2.2.2.1, h.2.2.2.2.2.2.2.2.2.2.2.1,
        h.2.2.2.2.2.2.2.2.2.2.2.2.1, h.2.2.2.2.2.2.2.2.2.2.2.2.2.1,
        h.2.2.2.2.2.2.2.2.2.2.2.2.2.2.1, h.2.2.2.2.2.2.2.2.2.2.2.2.2.2.2.1,
        h.2.2.2.2.2.2.2.2.2.2.2.2.2.2.2.2⟩, addStreetEdges_time]
      apply Opt.ext <;> simp [hacc, hp] <;> ring_nf

lemma tallyEgress_head (x : Opt) (leg : Leg) (rest : List Leg)
    (he : x.egress = some (leg :: rest)) (hse : leg.streetEdges = none) :
    tallyEgress x = { x with time := x.time + leg.time } := by
  unfold tallyEgress
  rw [he]
  dsimp only
  rw [hse]
  dsimp only [addStreetEdges]
  rw [he]

lemma tallyEgress_of_none (x : Opt) (he : x.egress = none) : tallyEgress x = x := by
  unfold tallyEgress
  rw [he]

/-- The egress analogue of the missing-streetEdges master equality, stated as
the field comparisons the claim is about: removing an egress leg that has no
streetEdges changes only the tallied time, by exactly that leg's time. -/
lemma tally_noEdges_egress_fields (self : ProfileScore) (o : Opt) (leg : Leg) (rest : List Leg)
    (he : o.egress = some (leg :: rest)) (hse : leg.streetEdges = none) :
    (self.tally o).time = leg.time + (self.tally { o with egress := none }).time
    ∧ (self.tally o).modes = (self.tally { o with egress := none }).modes
    ∧ (self.tally o).walkDistance = (self.tally { o with egress := none }).walkDistance
    ∧ (self.tally o).bikeDistance = (self.tally { o with egress := none }).bikeDistance
    ∧ (self.tally o).driveDistance = (self.tally { o with egress := none }).driveDistance
    ∧ (self.tally o).walkCalories = (self.tally { o with egress := none }).walkCalories := by
  have hD' : tallyDefaults { o with egress := none } = { tallyDefaults o with egress := none } := rfl
  have hA' : tallyAccess { tallyDefaults o with egress := none }
      = { tallyAccess (tallyDefaults o) with egress := none } := by
    rw [tallyAccess_frame3 { tallyDefaults o with egress := none } (tallyDefaults o)
      (eqExceptTAE_update _ _ _ _) rfl]
    apply Opt.ext <;> simp [tallyAccess_access] <;> ring_nf
  have hAe : (tallyAccess (tallyDefaults o)).egress = some (leg :: rest) := by
    rw [tallyAccess_egress]
    exact he
  have hq : tallyEgress (tallyAccess (tallyDefaults o))
      = { tallyAccess (tallyDefaults o) with
          time := (tallyAccess (tallyDefaults o)).time + leg.time } :=
    tallyEgress_head _ leg rest hAe hse
  have hp : tallyEgress { tallyAccess (tallyDefaults o) with egress := none }
      = { tallyAccess (tallyDefaults o) with egress := none } :=
    tallyEgress_of_none _ rfl
  have hEq : EqExceptTAE
      { tallyAccess (tallyDefaults o) with
        time := (tallyAccess (tallyDefaults o)).time + leg.time }
      { tallyAccess (tallyDefaults o) with egress := none } :=
    ⟨rfl, rfl, rfl, rfl, rfl, rfl, rfl, rfl, rfl, rfl, rfl, rfl, rfl, rfl, rfl, rfl, rfl⟩
  have hframe := tallyPostEgress_frame self _ _ hEq
  have htq : self.tally o
      = tallyCaloriesTotal (tallyDedup (tallyCar self (tallyBikeCalories self
          (tallyWalkCalories self (tallyTransit self
            { tallyAccess (tallyDefaults o) with
              time := (tallyAccess (tallyDefaults o)).time + leg.time }))))) := by
    show tallyCaloriesTotal (tallyDedup (tallyCar self (tallyBikeCalories self
      (tallyWalkCalories self (tallyTransit self (tallyEgress (tallyAccess
        (tallyDefaults o)))))))) = _
    rw [hq]
  have htp : self.tally { o with egress := none }
      = tallyCaloriesTotal (tallyDedup (tallyCar self (tallyBikeCalories self
          (tallyWalkCalories self (tallyTransit self
            { tallyAccess (tallyDefaults o) with egress := none }))))) := by
    show tallyCaloriesTotal (tallyDedup (tallyCar self (tallyBikeCalories self
      (tallyWalkCalories self (tallyTransit self (tallyEgress (tallyAccess
        (tallyDefaults { o with egress := none })))))))) = _
    rw [hD', hA', hp]
  rw [htq, htp, hframe]
  refine ⟨?_, by simp, by simp, by simp, by simp, by simp⟩
  simp
  ring

/-- C10: a first access or egress leg with a mode but no streetEdges field
still contributes its time to the tally (removing the leg changes only the
time, by exactly that leg's time), but contributes no mode and no distance;
with a walk access leg and nothing else the walk calories stay zero and walk
is absent from modes, whereas a present-but-empty streetEdges array does
record the mode with zero distance. -/
theorem c10_missing_street_edges (self : ProfileScore) (o : Opt) (leg : Leg) (rest : List Leg)
    (ha : o.access = some (leg :: rest)) (hse : leg.streetEdges = none) :
    ((self.tally o).time = leg.time + (self.tally { o with access := none }).time
     ∧ (self.tally o).modes = (self.tally { o with access := none }).modes
     ∧ (self.tally o).walkDistance = (self.tally { o with access := none }).walkDistance
     ∧ (self.tally o).bikeDistance = (self.tally { o with access := none }).bikeDistance
     ∧ (self.tally o).driveDistance = (self.tally { o with access := none }).driveDistance
     ∧ (self.tally o).walkCalories = (self.tally { o with access := none }).walkCalories)
    ∧ (∀ (o3 : Opt) (leg3 : Leg) (rest3 : List Leg),
        o3.egress = some (leg3 :: rest3) → leg3.streetEdges = none →
        ((self.tally o3).time = leg3.time + (self.tally { o3 with egress := none }).time
         ∧ (self.tally o3).modes = (self.tally { o3 with egress := none }).modes
         ∧ (self.tally o3).walkDistance = (self.tally { o3 with egress := none }).walkDistance
         ∧ (self.tally o3).bikeDistance = (self.tally { o3 with egress := none }).bikeDistance
         ∧ (self.tally o3).driveDistance = (self.tally { o3 with egress := none }).driveDistance
         ∧ (self.tally o3).walkCalories = (self.tally { o3 with egress := none }).walkCalories))
    ∧ (o.egress = none → o.transit = none →
        "walk" ∉ (self.tally o).modes ∧ (self.tally o).walkCalories = 0
          ∧ (self.tally o).time = leg.time)
    ∧ (∀ (o2 : Opt) (leg2 : Leg) (rest2 : List Leg), o2.access = some (leg2 :: rest2)
        → leg2.streetEdges = some [] → leg2.mode = "walk" → o2.egress = none
        → o2.transit = none →
        (self.tally o2).modes = ["walk"] ∧ (self.tally o2).walkDistance = 0) := by
  have hmaster := tally_noEdges_master self o leg rest ha hse
  refine ⟨⟨?_, ?_, ?_, ?_, ?_, ?_⟩, ?_, ?_, ?_⟩
  · rw [hmaster]
  · rw [hmaster]
  · rw [hmaster]
  · rw [hmaster]
  · rw [hmaster]
  · rw [hmaster]
  · intro o3 leg3 rest3 he3 hse3
    exact tally_noEdges_egress_fields self o3 leg3 rest3 he3 hse3
  · intro he htr
    have hempty := tally_empty self { o with access := none } rfl (by simp [he]) (by simp [htr])
    refine ⟨?_, ?_, ?_⟩
    · rw [hmaster]
      simp [hempty.1]
    · rw [hmaster]
      simp [hempty.2.1]
    · rw [hmaster]
      simp [hempty.2.2]
  · intro o2 leg2 rest2 ha2 hse2 hm2 he2 htr2
    constructor <;>
      simp [ProfileScore.tally, tallyCaloriesTotal, tallyDedup, tallyCar,
        tallyBikeCalories, tallyWalkCalories, tallyTransit, tallyEgress,
        tallyAccess, tallyDefaults, addStreetEdges, streetEdgeDistanceForMode,
        streetEdgeStep, jsDedup, dedupIns, ha2, hse2, hm2, he2, htr2,
        jsToLower_walk]

theorem c10_witness :
    (defaultScorer.tally oNoEdges).time
        = legNoEdges.time + (defaultScorer.tally { oNoEdges with access := none }).time
    ∧ (defaultScorer.tally oEgressNoEdges).time
        = legNoEdges.time + (defaultScorer.tally { oEgressNoEdges with egress := none }).time
    ∧ "walk" ∉ (defaultScorer.tally oNoEdges).modes :=
  ⟨(c10_missing_street_edges defaultScorer oNoEdges legNoEdges [] rfl rfl).1.1,
   ((c10_missing_street_edges defaultScorer oNoEdges legNoEdges [] rfl rfl).2.1
      oEgressNoEdges legNoEdges [] rfl rfl).1,
   ((c10_missing_street_edges defaultScorer oNoEdges legNoEdges [] rfl rfl).2.2.1 rfl rfl).1⟩

end OtpProfileScore
